import Mathlib

/-!
A verification development for the OpenUSD Exchange Samples repository.

The C++ sources are shallowly embedded: each sample `main()` and each helper
in `source/common/include` is translated into an executable Lean definition.
External effects (the OpenUSD / Exchange SDK calls, the file system) are
modelled by an environment of oracles (`samples.Env`) recording each call's
outcome, and a run of a program is a trace of emitted events
(`samples.Event`) together with the process exit status (`samples.Run`).
Read-only queries that do not influence control flow or authored data are not
recorded as events.
-/

namespace samples

/-! ## String and path utilities

Models of the C standard library and `std::filesystem` behaviour the samples
rely on, restricted to the ASCII paths the programs manipulate. -/

/-- Lowercase an ASCII character; models `std::tolower` in the C locale. -/
def asciiToLower (c : Char) : Char :=
  if 'A' ≤ c && c ≤ 'Z' then Char.ofNat (c.toNat + 32) else c

/-- Case-insensitive character comparison; models `ichar_equals` in `commandLine.h`. -/
def icharEquals (a b : Char) : Bool :=
  asciiToLower a = asciiToLower b

/-- Case-insensitive string equality; models `iequals` in `commandLine.h`.
The four-iterator `std::equal` returns false when the lengths differ. -/
def iequals (a b : String) : Bool :=
  (a.toList.length = b.toList.length) &&
    (a.toList.zip b.toList).all (fun p => icharEquals p.1 p.2)

/-- Index of the last occurrence of a character in a list, if any. -/
def lastIdxOf (c : Char) (cs : List Char) : Option Nat :=
  ((cs.enum.filter (fun q => q.2 = c)).getLast?).map (fun q => q.1)

/-- The filename component of a path: everything after the last slash. -/
def pathFilename (p : String) : String :=
  match lastIdxOf '/' p.toList with
  | none => p
  | some i => String.mk (p.toList.drop (i + 1))

/-- Models `std::filesystem::path::extension()`: the suffix of the filename
starting at its last period, except for the special filenames `.` and `..`
and for a period in the first position (hidden files have no extension). -/
def pathExtension (p : String) : String :=
  let f := pathFilename p
  if f = "." || f = ".." then ""
  else
    match lastIdxOf '.' f.toList with
    | none => ""
    | some 0 => ""
    | some i => String.mk (f.toList.drop i)

/-- Models `pxr::TfGetPathName`: everything up to and including the final
slash, or the empty string when there is no slash. -/
def tfGetPathName (p : String) : String :=
  match lastIdxOf '/' p.toList with
  | none => ""
  | some i => String.mk (p.toList.take (i + 1))

/-- Models `std::filesystem::path::parent_path()` lexically: the path with
the filename removed and no trailing slash. -/
def parentPathOf (p : String) : String :=
  match lastIdxOf '/' p.toList with
  | none => ""
  | some 0 => "/"
  | some i => String.mk (p.toList.take i)

/-! ## Command-line parsing (`commandLine.h`) -/

/-- Abstraction of a successfully parsed `cxxopts` result for the common
options: whether `--usda` and `--help` were given, and the `--path` value
when the flag appeared on the command line (`result.count("path") > 0`). -/
structure CmdResult where
  usda : Bool
  help : Bool
  path : Option String
deriving Repr, DecidableEq

/-- The `samples::Args` structure returned by `parseCommonOptions`. -/
structure Args where
  stagePath : String
  fileFormatArgs : List (String × String)
deriving Repr, DecidableEq

/-- Either the process terminated inside `parseCommonOptions` via `exit`,
or the function returned an `Args` value. -/
inductive ParseOutcome where
  | exited (code : Int)
  | returned (args : Args)
deriving Repr, DecidableEq

/-- The value of the token `pxr::UsdUsdFileFormatTokens->FormatArg`. -/
def usdFormatArgToken : String := "format"

/-- The value of the token `pxr::UsdUsdaFileFormatTokens->Id`. -/
def usdaFormatId : String := "usda"

/-- Models `samples::getDefaultStagePath` in `sysUtils.h`: the normalized
temp directory followed by `/usdex/sample` and the extension. -/
def getDefaultStagePath (tmpDir ext : String) : String :=
  tmpDir ++ "/usdex/sample" ++ ext

/-- Models `samples::parseCommonOptions` in `commandLine.h`. `cmd = none`
models a `cxxopts::OptionException` (caught, usage printed, `exit(2)`).
Otherwise the help flag exits with 0; `--usda` switches the default stage
path to `.usda`; an explicit `--path` overrides the stage path, with
`exit(2)` for a `--usda`/`.usdc` combination and a file-format argument
steering a `.usd` layer to the text format. -/
def parseCommonOptions (tmpDir : String) (cmd : Option CmdResult) : ParseOutcome :=
  match cmd with
  | none => .exited 2
  | some r =>
    if r.help then .exited 0
    else
      let defPath :=
        if r.usda then getDefaultStagePath tmpDir ".usda"
        else getDefaultStagePath tmpDir ".usdc"
      match r.path with
      | none => .returned { stagePath := defPath, fileFormatArgs := [] }
      | some p =>
        if r.usda && iequals (pathExtension p) ".usdc" then .exited 2
        else if r.usda && iequals (pathExtension p) ".usd" then
          .returned { stagePath := p, fileFormatArgs := [(usdFormatArgToken, usdaFormatId)] }
        else
          .returned { stagePath := p, fileFormatArgs := [] }

/-! ## Events, attribute values and runs -/

/-- Exact rational stand-ins for the double/float constants the samples
author; every constant appearing in the sources is representable. -/
abbrev Vec3 : Type := ℚ × ℚ × ℚ

/-- A pair of rationals standing in for a `GfVec2f`. -/
abbrev Vec2 : Type := ℚ × ℚ

/-- An attribute value authored by a sample. `computed` marks a value the
external SDK computes (such as an extent from `ComputeExtentFromPlugins`). -/
inductive Value where
  | b (x : Bool)
  | i (x : Int)
  | d (x : ℚ)
  | tok (s : String)
  | str (s : String)
  | v2 (x : Vec2)
  | v3 (x : Vec3)
  | v3list (xs : List Vec3)
  | tokList (xs : List String)
  | matList (n : Nat)
  | computed
deriving Repr, DecidableEq

/-- One observable SDK or system call made by a sample program. Prim paths
are lists of prim names from the pseudo-root. -/
inductive Event where
  | parseArgs
  | print (s : String)
  | findOrOpenLayer (path : String) (found : Bool)
  | openStage (path : String)
  | createStage (path : String) (defaultPrim : String)
  | createInMemory
  | configureStage (defaultPrim : String)
  | define (schema : String) (path : List String)
  | overridePrim (path : List String)
  | createAttr (path : List String) (attr : String)
  | setAttr (path : List String) (attr : String) (value : Value)
  | setAttrDisplayName (path : List String) (attr displayAs : String)
  | setDisplayName (path : List String) (name : String)
  | computeExtent (path : List String)
  | setLocalTransform (path : List String)
  | setPrimvar (path : List String) (primvar : String)
  | applyAPI (path : List String) (api : String)
  | setKind (path : List String) (kind : String)
  | setDocumentation (path : List String)
  | setRelationship (path : List String) (rel : String) (targets : List (List String))
  | addReference (path : List String) (target : String)
  | addPayload (path : List String) (target : String)
  | defineReference (path : List String) (source : List String)
  | bindMaterial (path : List String) (material : List String)
  | addTexture (path : List String) (kind : String) (file : String)
  | createShaderInput (path : List String) (input : String)
  | createAssetPayload
  | addAssetLibrary (tok : String)
  | addAssetContent (tok : String)
  | addAssetInterface
  | createDirectories (path : String)
  | copyFile (src dst : String)
  | exportLayer (path : String)
  | saveStage
  | setStageTimeMetadata
deriving Repr, DecidableEq

/-- A complete run of a sample process: the trace of calls it made (with
`Event.print` recording stdout lines) and its exit status. -/
structure Run where
  trace : List Event
  exit : Int
deriving Repr, DecidableEq

/-- The stdout lines of a run, in order. -/
def Run.out (r : Run) : List String :=
  r.trace.filterMap (fun ev => match ev with
    | .print s => some s
    | _ => none)

/-- Whether a stdout line is one of the error diagnostics the samples print. -/
def startsWithError (s : String) : Bool :=
  s.toList.take 5 = "Error".toList

/-! ## The environment of oracle outcomes

All behaviour of the external SDK and of the file system is supplied by an
environment. A field holds either the success/failure of a fallible call or
the value a query returns; the programs themselves are deterministic
functions of this environment. -/

structure Env where
  /-- Temp directory used by `getDefaultStagePath`. -/
  tmpDir : String
  /-- The parsed command line for samples using `parseCommonOptions`. -/
  cmd : Option CmdResult
  /-- `argc` for `usdTraverse`, which reads `argv` directly. -/
  argc : Nat
  /-- `argv[1]` for `usdTraverse`. -/
  argv1 : String
  /-- `pxr::ArchGetExecutablePath()`. -/
  execPath : String
  /-- `pxr::UsdGeomGetFallbackUpAxis()` (typically `Y`). -/
  fallbackUpAxis : String
  /-- `pxr::UsdGeomGetStageUpAxis(stage)` for the open stage. -/
  stageUpAxis : String
  /-- Whether `SdfLayer::FindOrOpen` finds a layer at a path. -/
  findLayer : String → Bool
  /-- Whether `UsdStage::Open` succeeds on a path. -/
  openStageOk : String → Bool
  /-- Whether `usdex::core::createStage` succeeds on a path. -/
  createStageOk : String → Bool
  /-- Whether `UsdStage::CreateInMemory` succeeds. -/
  createInMemoryOk : Bool
  /-- Whether `usdex::core::exportLayer` succeeds on a path. -/
  exportLayerOk : String → Bool
  /-- Default prim name of a pre-existing stage opened from a path. -/
  defaultPrimOf : String → String
  /-- `usdex::core::getValidChildNames(parent, names)`: valid, unique child
  names under a parent path. The SDK guarantees one output per input. -/
  validNames : List String → List String → List String
  /-- `usdex::core::getValidPrimName(name)`. -/
  validPrimName : String → String
  /-- `std::filesystem::proximate(path, base)`. -/
  proximate : String → String → String
  /-- Error message from `std::filesystem::create_directories`, if it fails. -/
  dirCreateErr : String → Option String
  /-- Error message from `std::filesystem::copy` to a target, if it fails. -/
  copyErr : String → Option String
  /-- Whether `usdex::core::definePolyMesh` yields a valid mesh at a path. -/
  polyMeshOk : List String → Bool
  /-- Whether a checked SDK prim definition at a path yields a valid prim. -/
  defineOk : List String → Bool
  /-- Result of `UsdSkelTopology::Validate`. -/
  topologyOk : Bool
  /-- Reason string when the skeleton topology is invalid. -/
  topologyReason : String
  /-- Whether the traversal in `createPhysicsScene` finds a physics scene. -/
  physicsSceneExists : Bool
  /-- Whether the traversal in `createGroundWithCollision` finds a plane. -/
  planeExists : Bool
  /-- Whether `findXformable` in createTransforms finds an xformable prim. -/
  foundXformable : Bool
  /-- Path of the xformable prim found by `findXformable`. -/
  foundXformablePath : List String
  /-- Whether the last child of the reference prim is a `UsdGeomXformable`. -/
  lastChildXformable : Bool
  /-- Whether the last child of the payload prim is a `UsdGeomMesh`. -/
  lastChildMesh : Bool
  /-- Name of the last child returned by `GetAllChildrenNames().back()`. -/
  lastChildName : String
  /-- Whether `usdex::core::createAssetPayload` succeeds. -/
  assetPayloadOk : Bool
  /-- Whether `UsdStage::OverridePrim` yields a valid prim at a path. -/
  overrideOk : List String → Bool
  /-- Default prim path of an asset library stage, per library token. -/
  libraryDefaultPrim : String → List String
  /-- Default prim path of an asset content stage, per content token. -/
  contentDefaultPrim : String → List String
  /-- Printed `UsdGeomGetStageUpAxis` value in usdTraverse. -/
  upAxisStr : String
  /-- Printed `UsdGeomGetStageMetersPerUnit` value in usdTraverse. -/
  metersPerUnitStr : String
  /-- Lines printed by the traversal loop of usdTraverse. -/
  traverseLines : List String
  /-- `usdex::core::getDisplayName` of the rocket xform before renaming. -/
  origDisplayName : String
  /-- `computeEffectiveDisplayName` of the rocket xform before renaming. -/
  origEffectiveName : String
  /-- `computeEffectiveDisplayName` of the rocket xform after renaming. -/
  curEffectiveName : String
  /-- Lines printed by the semantics traversal loop in setSemantics. -/
  semanticsLines : List String

/-- The single-name form of the `getValidChildNames` oracle, as used by the
helpers that pass a one-element vector and index the result at 0. -/
def Env.validName (e : Env) (parent : List String) (n : String) : String :=
  (e.validNames parent [n]).getD 0 n

/-- The multi-name form, normalized to return exactly one name per input
as the SDK guarantees. -/
def Env.validNamesN (e : Env) (parent : List String) (names : List String) : List String :=
  names.enum.map (fun q => (e.validNames parent names).getD q.1 q.2)

/-! ## Stage and prim helpers (`usdUtils.h`) -/

/-- Models `samples::openOrCreateStage`: `SdfLayer::FindOrOpen` followed by
either `UsdStage::Open` on the found layer or `usdex::core::createStage`.
Returns the emitted events, whether a valid stage resulted, and the default
prim path of the resulting stage. -/
def openOrCreateStage (e : Env) (path : String) (defaultPrimName : String := "World") :
    List Event × Bool × List String :=
  if e.findLayer path then
    ([.findOrOpenLayer path true, .openStage path], e.openStageOk path, [e.defaultPrimOf path])
  else
    ([.findOrOpenLayer path false, .createStage path defaultPrimName],
      e.createStageOk path, [defaultPrimName])

/-- Models `samples::setOmniverseRefinement`: two custom attributes with
display names, authored unconditionally. -/
def setOmniverseRefinement (p : List String) (enabled : Bool := true) (level : Int := 2) :
    List Event :=
  [ .createAttr p "refinementEnableOverride",
    .setAttr p "refinementEnableOverride" (.b enabled),
    .setAttrDisplayName p "refinementEnableOverride" "omniRefinementEnableOverride",
    .createAttr p "refinementLevel",
    .setAttr p "refinementLevel" (.i level),
    .setAttrDisplayName p "refinementLevel" "omniRefinementLevel" ]

/-- Models `samples::setExtents`: `ComputeExtentFromPlugins` followed by
setting the extent attribute to the computed value. -/
def setExtents (p : List String) : List Event :=
  [ .computeExtent p, .setAttr p "extent" .computed ]

/-- Models `samples::setTransformAndDisplayColor`: one `setLocalTransform`
when any of position/rotation/scale is present, then the display color
primvar when present. -/
def setTransformAndDisplayColor (p : List String)
    (position rotation scale displayColor : Option Vec3) : List Event :=
  (if position.isSome || rotation.isSome || scale.isSome then [Event.setLocalTransform p] else [])
  ++ (match displayColor with
      | some c => [Event.setAttr p "primvars:displayColor" (.v3list [c])]
      | none => [])

/-- Models `samples::createCone`. Returns the child prim path and trace. -/
def createCone (e : Env) (parent : List String) (name : String := "cone")
    (axis : String := e.fallbackUpAxis) (height : ℚ := 100) (radius : ℚ := 50)
    (position : Option Vec3 := none) (rotation : Option Vec3 := none)
    (scale : Option Vec3 := none) (displayColor : Option Vec3 := none) :
    List String × List Event :=
  let child := parent ++ [e.validName parent name]
  (child,
    Event.define "Cone" child ::
    Event.setAttr child "axis" (.tok axis) ::
    Event.setAttr child "height" (.d height) ::
    Event.setAttr child "radius" (.d radius) ::
    (setOmniverseRefinement child ++ setExtents child
      ++ setTransformAndDisplayColor child position rotation scale displayColor))

/-- Models `samples::createSphere`. -/
def createSphere (e : Env) (parent : List String) (name : String := "sphere")
    (radius : ℚ := 50)
    (position : Option Vec3 := none) (rotation : Option Vec3 := none)
    (scale : Option Vec3 := none) (displayColor : Option Vec3 := none) :
    List String × List Event :=
  let child := parent ++ [e.validName parent name]
  (child,
    Event.define "Sphere" child ::
    Event.setAttr child "radius" (.d radius) ::
    (setOmniverseRefinement child ++ setExtents child
      ++ setTransformAndDisplayColor child position rotation scale displayColor))

/-- Models `samples::createCube` (no refinement attributes for cubes). -/
def createCube (e : Env) (parent : List String) (name : String := "cube")
    (size : ℚ := 100)
    (position : Option Vec3 := none) (rotation : Option Vec3 := none)
    (scale : Option Vec3 := none) (displayColor : Option Vec3 := none) :
    List String × List Event :=
  let child := parent ++ [e.validName parent name]
  (child,
    Event.define "Cube" child ::
    Event.setAttr child "size" (.d size) ::
    (setExtents child
      ++ setTransformAndDisplayColor child position rotation scale displayColor))

/-- Models `samples::createCylinder`. -/
def createCylinder (e : Env) (parent : List String) (name : String := "cylinder")
    (axis : String := e.fallbackUpAxis) (height : ℚ := 400) (radius : ℚ := 50)
    (position : Option Vec3 := none) (rotation : Option Vec3 := none)
    (scale : Option Vec3 := none) (displayColor : Option Vec3 := none) :
    List String × List Event :=
  let child := parent ++ [e.validName parent name]
  (child,
    Event.define "Cylinder" child ::
    Event.setAttr child "axis" (.tok axis) ::
    Event.setAttr child "height" (.d height) ::
    Event.setAttr child "radius" (.d radius) ::
    (setOmniverseRefinement child ++ setExtents child
      ++ setTransformAndDisplayColor child position rotation scale displayColor))

/-- Models `samples::createCapsule`. -/
def createCapsule (e : Env) (parent : List String) (name : String := "capsule")
    (axis : String := e.fallbackUpAxis) (height : ℚ := 100) (radius : ℚ := 50)
    (position : Option Vec3 := none) (rotation : Option Vec3 := none)
    (scale : Option Vec3 := none) (displayColor : Option Vec3 := none) :
    List String × List Event :=
  let child := parent ++ [e.validName parent name]
  (child,
    Event.define "Capsule" child ::
    Event.setAttr child "axis" (.tok axis) ::
    Event.setAttr child "height" (.d height) ::
    Event.setAttr child "radius" (.d radius) ::
    (setOmniverseRefinement child ++ setExtents child
      ++ setTransformAndDisplayColor child position rotation scale displayColor))

/-! ## The cube mesh (`createCubeMesh` in `usdUtils.h`) -/

/-- The literal `cubeVertexIndices` array. -/
def cubeVertexIndices : List Nat :=
  [ 0, 1, 2, 1, 3, 2,
    4, 5, 6, 4, 6, 7,
    8, 9, 10, 8, 10, 11,
    12, 13, 14, 12, 14, 15,
    16, 17, 18, 16, 18, 19,
    20, 21, 22, 20, 22, 23 ]

/-- The literal `cubeNormals` array. -/
def cubeNormals : List Vec3 :=
  [ (0, 0, -1), (0, 0, -1), (0, 0, -1), (0, 0, -1),
    (0, 0, 1), (0, 0, 1), (0, 0, 1), (0, 0, 1),
    (0, -1, 0), (0, -1, 0), (0, -1, 0), (0, -1, 0),
    (1, 0, 0), (1, 0, 0), (1, 0, 0), (1, 0, 0),
    (0, 1, 0), (0, 1, 0), (0, 1, 0), (0, 1, 0),
    (-1, 0, 0), (-1, 0, 0), (-1, 0, 0), (-1, 0, 0) ]

/-- The literal `cubePoints` array, parameterized by the half height `h`. -/
def cubePoints (h : ℚ) : List Vec3 :=
  [ (h, -h, -h), (-h, -h, -h), (h, h, -h), (-h, h, -h),
    (h, h, h), (-h, h, h), (-h, -h, h), (h, -h, h),
    (h, -h, h), (-h, -h, h), (-h, -h, -h), (h, -h, -h),
    (h, h, h), (h, -h, h), (h, -h, -h), (h, h, -h),
    (-h, h, h), (h, h, h), (h, h, -h), (-h, h, -h),
    (-h, -h, h), (-h, h, h), (-h, h, -h), (-h, -h, -h) ]

/-- The literal `cubeUV` array. -/
def cubeUV : List Vec2 :=
  [ (0, 0), (0, 1), (1, 1), (1, 0),
    (0, 0), (0, 1), (1, 1), (1, 0),
    (0, 0), (0, 1), (1, 1), (1, 0),
    (0, 0), (0, 1), (1, 1), (1, 0),
    (0, 0), (0, 1), (1, 1), (1, 0),
    (0, 0), (0, 1), (1, 1), (1, 0) ]

/-- A `usdex::core::PrimvarData`: interpolation token, flattened values and
optional indices. -/
structure PrimvarData (α : Type) where
  interpolation : String
  values : List α
  indices : Option (List Nat) := none
deriving Repr, DecidableEq

/-- Models `PrimvarData::index()` of the external SDK: deduplicate the
values in first-occurrence order and index every original value into the
deduplicated list. The interpolation is unchanged. -/
def PrimvarData.index {α : Type} [DecidableEq α] (pd : PrimvarData α) : PrimvarData α :=
  let uniques := pd.values.foldl (fun acc v => if v ∈ acc then acc else acc.concat v) []
  { interpolation := pd.interpolation,
    values := uniques,
    indices := some (pd.values.map (fun v => uniques.indexOf v)) }

/-- The number of primvar elements a consumer sees: the index count when
indexed, the value count otherwise. -/
def PrimvarData.effectiveSize {α : Type} (pd : PrimvarData α) : Nat :=
  match pd.indices with
  | some l => l.length
  | none => pd.values.length

/-- Everything `createCubeMesh` hands to `usdex::core::definePolyMesh`. -/
structure PolyMeshArgs where
  path : List String
  faceVertexCounts : List Nat
  faceVertexIndices : List Nat
  points : List Vec3
  normals : PrimvarData Vec3
  uvs : PrimvarData Vec2
  displayColor : PrimvarData Vec3
deriving Repr, DecidableEq

/-- The mesh data assembled by `samples::createCubeMesh` before the
`definePolyMesh` call: 12 triangles, the literal index/point/normal/UV
arrays, `vertex`-interpolated and indexed normals and UVs, and a constant
display color. -/
def createCubeMeshArgs (e : Env) (parent : List String) (meshName : String)
    (halfHeight : ℚ) : PolyMeshArgs :=
  let child := parent ++ [e.validName parent meshName]
  { path := child,
    faceVertexCounts := List.replicate 12 3,
    faceVertexIndices := cubeVertexIndices,
    points := cubePoints halfHeight,
    normals := (PrimvarData.mk "vertex" cubeNormals none).index,
    uvs := (PrimvarData.mk "vertex" cubeUV none).index,
    displayColor := { interpolation := "constant", values := [(463/1000, 725/1000, 0)] } }

/-- Models `samples::createCubeMesh`. Returns the mesh prim path when
`definePolyMesh` succeeds (`none` models the early return on an invalid
mesh) together with the trace: an optional renaming notice, the mesh
definition, then display name and transform when applicable. -/
def createCubeMesh (e : Env) (parent : List String) (meshName : String := "cubeMesh")
    (halfHeight : ℚ := 50) (localPos : Vec3 := (0, 0, 0)) :
    Option (List String) × List Event :=
  let a := createCubeMeshArgs e parent meshName halfHeight
  let valid := e.validName parent meshName
  let child := a.path
  let renameEvents :=
    if meshName ≠ valid then
      [Event.print ("Renaming input mesh name <" ++ meshName
        ++ "> to the valid USD prim name <" ++ valid ++ ">")]
    else []
  if ¬ e.polyMeshOk child then
    (none, renameEvents ++ [Event.define "Mesh" child])
  else
    (some child,
      renameEvents ++ [Event.define "Mesh" child]
      ++ (if meshName ≠ valid then [Event.setDisplayName child meshName] else [])
      ++ (if localPos ≠ ((0 : ℚ), (0 : ℚ), (0 : ℚ)) then [Event.setLocalTransform child] else []))

/-! ## Texture copying (`sysUtils.h`) -/

/-- Models `samples::copyTextureToStagePath`: build the source and target
paths, create the textures directory, copy the file — printing, but not
acting on, any error — and return the relative texture path. -/
def copyTextureToStagePath (e : Env) (stagePath textureFile : String) :
    List Event × String :=
  let sourcePath := tfGetPathName e.execPath ++ "../../../resources/Materials/" ++ textureFile
  let stagePathParent := tfGetPathName stagePath
  let textureTargetPath :=
    if stagePathParent = "" then "textures" ++ "/" ++ textureFile
    else stagePathParent ++ "/" ++ "textures" ++ "/" ++ textureFile
  let dir := parentPathOf textureTargetPath
  let dirEvents :=
    Event.createDirectories dir ::
    (match e.dirCreateErr dir with
     | some m => [Event.print ("Error creating directories: " ++ m)]
     | none => [])
  let copyEvents :=
    Event.copyFile sourcePath textureTargetPath ::
    (match e.copyErr textureTargetPath with
     | some m => [Event.print ("Error copying file: " ++ m)]
     | none => [])
  (dirEvents ++ copyEvents, "./" ++ "textures" ++ "/" ++ textureFile)

/-! ## The sample programs -/

/-- Prefix every sample main shares: run `parseCommonOptions` and either
terminate with its exit code or continue with the parsed arguments. -/
def withParsedArgs (e : Env) (body : Args → List Event × Int) : Run :=
  match parseCommonOptions e.tmpDir e.cmd with
  | .exited c => { trace := [.parseArgs], exit := c }
  | .returned args =>
    let r := body args
    { trace := Event.parseArgs :: r.1, exit := r.2 }

/-- Render a prim path the way a `SdfPath` prints. -/
def pathString (p : List String) : String :=
  "/" ++ String.intercalate "/" p

/-- Models `createStage.cpp`: create (never open) a stage, author a cube
and a distant light, save. -/
def createStageRun (e : Env) : Run :=
  withParsedArgs e fun args =>
    let pre := [Event.print ("Stage path: " ++ args.stagePath),
                Event.createStage args.stagePath "World"]
    if ¬ e.createStageOk args.stagePath then
      (pre ++ [Event.print "Error creating stage, exiting"], -1)
    else
      let world := ["World"]
      let cube := createCube e world "cube"
      let lightPath := world ++ [e.validPrimName "distantLight"]
      if ¬ e.defineOk lightPath then
        (pre ++ cube.2 ++ [Event.define "DistantLight" lightPath,
          Event.print "Error creating distant light, exiting"], -1)
      else
        (pre ++ cube.2 ++ [Event.define "DistantLight" lightPath, Event.saveStage], 0)

/-- Models `createMesh.cpp`: open or create a stage, author a cube mesh,
save. -/
def createMeshRun (e : Env) : Run :=
  withParsedArgs e fun args =>
    let pre := [Event.print ("Stage path: " ++ args.stagePath)]
    let acq := openOrCreateStage e args.stagePath
    if ¬ acq.2.1 then
      (pre ++ acq.1 ++ [Event.print "Error opening or creating stage, exiting"], -1)
    else
      let mesh := createCubeMesh e acq.2.2 "cubeMesh" 50 (0, 150, 0)
      match mesh.1 with
      | none => (pre ++ acq.1 ++ mesh.2 ++ [Event.print "Error creating cube mesh, exiting"], -1)
      | some _ => (pre ++ acq.1 ++ mesh.2 ++ [Event.saveStage], 0)

/-- Models `createCameras.cpp`: open or create a stage, define two cameras
with transforms, save. -/
def createCamerasRun (e : Env) : Run :=
  withParsedArgs e fun args =>
    let pre := [Event.print ("Stage path: " ++ args.stagePath)]
    let acq := openOrCreateStage e args.stagePath
    if ¬ acq.2.1 then
      (pre ++ acq.1 ++ [Event.print "Error opening or creating stage, exiting"], -1)
    else
      let defPrim := acq.2.2
      let names := e.validNamesN defPrim ["telephotoCamera", "wideCamera"]
      let p0 := defPrim ++ [names.getD 0 "telephotoCamera"]
      let p1 := defPrim ++ [names.getD 1 "wideCamera"]
      (pre ++ acq.1
        ++ [Event.define "Camera" p0, Event.setLocalTransform p0,
            Event.define "Camera" p1, Event.setLocalTransform p1, Event.saveStage], 0)

/-- Models `createRectLight` in `createLights.cpp`. -/
def createRectLight (e : Env) (defPrim : List String) : List Event :=
  let p := defPrim ++ [e.validName defPrim "rectLight"]
  [ Event.define "RectLight" p, Event.setLocalTransform p,
    Event.createAttr p "inputs:color", Event.setAttr p "inputs:color" (.v3 (0, 0, 1)) ]

/-- Models `createDomeLight` in `createLights.cpp`. -/
def createDomeLight (e : Env) (defPrim : List String) : List Event :=
  let p := defPrim ++ [e.validName defPrim "domeLight"]
  [ Event.define "DomeLight" p ]

/-- Models `createLights.cpp`: open or create a stage, author a rect
light, copy an HDRI texture (failures only printed), author a dome light,
save. -/
def createLightsRun (e : Env) : Run :=
  withParsedArgs e fun args =>
    let pre := [Event.print ("Stage path: " ++ args.stagePath)]
    let acq := openOrCreateStage e args.stagePath
    if ¬ acq.2.1 then
      (pre ++ acq.1 ++ [Event.print "Error opening or creating stage, exiting"], -1)
    else
      let defPrim := acq.2.2
      let copy := copyTextureToStagePath e args.stagePath "kloofendal_48d_partly_cloudy.hdr"
      (pre ++ acq.1 ++ createRectLight e defPrim ++ copy.1
        ++ createDomeLight e defPrim ++ [Event.saveStage], 0)

/-- Models `createTransforms.cpp`: open or create a stage, rotate an
existing (or newly created) xformable, author a ground xform and two more
cubes with transforms, save. -/
def createTransformsRun (e : Env) : Run :=
  withParsedArgs e fun args =>
    let pre := [Event.print ("Stage path: " ++ args.stagePath)]
    let acq := openOrCreateStage e args.stagePath
    if ¬ acq.2.1 then
      (pre ++ acq.1 ++ [Event.print "Error opening or creating stage, exiting"], -1)
    else
      let defPrim := acq.2.2
      let found :=
        if e.foundXformable then (e.foundXformablePath, ([] : List Event))
        else createCube e defPrim "cube"
      let gx := defPrim ++ [e.validName defPrim "groundXform"]
      let ground := createCube e gx "groundCube"
      let quat := createCube e defPrim "quatCube"
      (pre ++ acq.1 ++ found.2
        ++ [Event.print ("Rotating xformable< " ++ pathString found.1
              ++ "> 45 degrees in the Y axis"),
            Event.setLocalTransform found.1,
            Event.define "Xform" gx]
        ++ ground.2 ++ [Event.setLocalTransform ground.1]
        ++ quat.2 ++ [Event.setLocalTransform quat.1, Event.saveStage], 0)

/-- Models `createRocket` in `setDisplayNames.cpp`. -/
def createRocket (e : Env) (defPrim : List String) : List Event :=
  let xform := defPrim ++ [e.validName defPrim "rocket"]
  let tube := createCylinder e xform "tube"
  let nose := createCone e xform "nose"
  let fin1 := createCube e xform "fin"
  let fin2 := createCube e xform "fin"
  [Event.define "Xform" xform]
  ++ tube.2 ++ [Event.setLocalTransform tube.1]
  ++ nose.2 ++ [Event.setLocalTransform nose.1]
  ++ fin1.2 ++ [Event.setLocalTransform fin1.1]
  ++ fin2.2 ++ [Event.setLocalTransform fin2.1]
  ++ [ Event.setDisplayName xform "🚀",
       Event.setDisplayName tube.1 "⛽ tube",
       Event.setDisplayName nose.1 "👃 nose",
       Event.setDisplayName fin1.1 "🦈 fin",
       Event.setDisplayName fin2.1 "🦈 fin",
       Event.print "Xform prim display name status:",
       Event.print (" original getDisplayName():              <" ++ e.origDisplayName ++ ">"),
       Event.print (" original computeEffectiveDisplayName(): <" ++ e.origEffectiveName ++ ">"),
       Event.print (" current computeEffectiveDisplayName():  <" ++ e.curEffectiveName ++ ">") ]

/-- Models `setDisplayNames.cpp`: open or create a stage, build the rocket
with UTF-8 display names, save. -/
def setDisplayNamesRun (e : Env) : Run :=
  withParsedArgs e fun args =>
    let pre := [Event.print ("Stage path: " ++ args.stagePath)]
    let acq := openOrCreateStage e args.stagePath
    if ¬ acq.2.1 then
      (pre ++ acq.1 ++ [Event.print "Error opening or creating stage, exiting"], -1)
    else
      (pre ++ acq.1 ++ createRocket e acq.2.2 ++ [Event.saveStage], 0)

/-- Models `createHouse` in `setSemantics.cpp`, returning the house prim
path and the trace. -/
def createHouse (e : Env) (defPrim : List String) : List String × List Event :=
  let xform := defPrim ++ [e.validName defPrim "house"]
  let wall := createCube e xform "wall"
  let roof := createCube e xform "roof"
  let door := createCube e xform "door"
  let window := createCube e xform "window"
  (xform,
    [Event.define "Xform" xform]
    ++ wall.2 ++ [Event.setLocalTransform wall.1]
    ++ roof.2 ++ [Event.setLocalTransform roof.1]
    ++ door.2 ++ [Event.setLocalTransform door.1]
    ++ window.2 ++ [Event.setLocalTransform window.1])

/-- Models `setQCode` in `setSemantics.cpp`. -/
def setQCode (p : List String) (qCodes : List String) : List Event :=
  [ Event.applyAPI p "UsdSemanticsLabelsAPI:wikidata_qcode",
    Event.setAttr p "semantics:labels:wikidata_qcode" (.tokList qCodes) ]

/-- Models `setSemantics.cpp`: open or create a stage, build the house,
set a documentation string and wikidata Q-code labels, report labelled
prims, save. -/
def setSemanticsRun (e : Env) : Run :=
  withParsedArgs e fun args =>
    let pre := [Event.print ("Stage path: " ++ args.stagePath)]
    let acq := openOrCreateStage e args.stagePath
    if ¬ acq.2.1 then
      (pre ++ acq.1 ++ [Event.print "Error opening or creating stage, exiting"], -1)
    else
      let defPrim := acq.2.2
      let house := createHouse e defPrim
      let doc := "This house was generated using the setSemantics sample, which utilizes Wikidata Q-codes to ensure accurate and consistent semantic representation."
      (pre ++ acq.1 ++ house.2
        ++ [Event.print ("Created house prim: " ++ pathString house.1),
            Event.setDocumentation defPrim]
        ++ setQCode house.1 ["Q3947"]
        ++ setQCode (house.1 ++ ["wall"]) ["Q42948"]
        ++ setQCode (house.1 ++ ["roof"]) ["Q83180"]
        ++ setQCode (house.1 ++ ["door"]) ["Q36794"]
        ++ setQCode (house.1 ++ ["window"]) ["Q35473"]
        ++ [Event.print doc]
        ++ e.semanticsLines.map Event.print
        ++ [Event.saveStage], 0)

/-- Models `UsdTraverse.cpp`: expect exactly one argument, open the stage
read-only, print metrics and the traversal; nothing is ever written. Note
the distinct exit codes `-1` (argument count) and `-2` (failed open). -/
def usdTraverseRun (e : Env) : Run :=
  if e.argc ≠ 2 then
    { trace := [.print "Please provide a local file path to a USD stage to read."], exit := -1 }
  else
    let pre := [Event.print ("OpenUSD Stage Traversal: " ++ e.argv1),
                Event.openStage e.argv1]
    if ¬ e.openStageOk e.argv1 then
      { trace := pre ++ [Event.print "Failure to open stage.  Exiting."], exit := -2 }
    else
      { trace := pre
          ++ [Event.print ("Stage up-axis: " ++ e.upAxisStr),
              Event.print ("Meters per unit: " ++ e.metersPerUnitStr)]
          ++ e.traverseLines.map Event.print,
        exit := 0 }

/-- Models `createMaterials.cpp`: open or create a stage, author a Looks
scope, copy three textures, then author a textured PBR cube mesh, a
world-projected PBR sphere and a preview-surface cube mesh, checking each
mesh and material definition. -/
def createMaterialsRun (e : Env) : Run :=
  withParsedArgs e fun args =>
    let pre := [Event.print ("Stage path: " ++ args.stagePath)]
    let acq := openOrCreateStage e args.stagePath
    if ¬ acq.2.1 then
      (pre ++ acq.1 ++ [Event.print "Error opening or creating stage, exiting"], -1)
    else
      let defPrim := acq.2.2
      let scope := defPrim ++ ["Looks"]
      let names := e.validNamesN scope ["cubePbr", "sphereUvwPbr", "previewSurfacePbr"]
      let copy1 := copyTextureToStagePath e args.stagePath "Fieldstone/Fieldstone_BaseColor.png"
      let copy2 := copyTextureToStagePath e args.stagePath "Fieldstone/Fieldstone_N.png"
      let copy3 := copyTextureToStagePath e args.stagePath "Fieldstone/Fieldstone_ORM.png"
      let colorTex := copy1.2
      let normalTex := copy2.2
      let ormTex := copy3.2
      let head := pre ++ acq.1 ++ [Event.define "Scope" scope] ++ copy1.1 ++ copy2.1 ++ copy3.1
      let mesh1 := createCubeMesh e defPrim "pbrMesh" 50 (-300, 0, -300)
      match mesh1.1 with
      | none => (head ++ mesh1.2 ++ [Event.print "Error creating cube mesh, exiting"], -1)
      | some meshPath1 =>
        let mat0 := scope ++ [names.getD 0 "cubePbr"]
        let head := head ++ mesh1.2 ++ [Event.define "Material" mat0]
        if ¬ e.defineOk mat0 then
          (head ++ [Event.print "Error creating mesh cube material, exiting"], -1)
        else
          let head := head
            ++ [Event.addTexture mat0 "diffuse" colorTex,
                Event.addTexture mat0 "orm" ormTex,
                Event.addTexture mat0 "normal" normalTex,
                Event.bindMaterial meshPath1 mat0]
          let sphere := defPrim ++ [e.validName defPrim "pbrSphere"]
          let head := head
            ++ [Event.define "Sphere" sphere, Event.setAttr sphere "radius" (.d 50)]
            ++ setOmniverseRefinement sphere ++ setExtents sphere
            ++ [Event.setLocalTransform sphere]
          let mat1 := scope ++ [names.getD 1 "sphereUvwPbr"]
          let head := head ++ [Event.define "Material" mat1]
          if ¬ e.defineOk mat1 then
            (head ++ [Event.print "Error creating sphere material, exiting"], -1)
          else
            let head := head
              ++ [Event.addTexture mat1 "diffuse" colorTex,
                  Event.addTexture mat1 "orm" ormTex,
                  Event.addTexture mat1 "normal" normalTex,
                  Event.bindMaterial sphere mat1,
                  Event.createShaderInput mat1 "project_uvw",
                  Event.createShaderInput mat1 "world_or_object",
                  Event.createShaderInput mat1 "texture_scale"]
            let mesh2 := createCubeMesh e defPrim "previewSurfaceMesh" 50 (-500, 0, -500)
            match mesh2.1 with
            | none => (head ++ mesh2.2 ++ [Event.print "Error creating cube mesh, exiting"], -1)
            | some meshPath2 =>
              let mat2 := scope ++ [names.getD 2 "previewSurfacePbr"]
              let head := head ++ mesh2.2 ++ [Event.define "Material" mat2]
              if ¬ e.defineOk mat2 then
                (head ++ [Event.print "Error creating USD Preview Surface material, exiting"], -1)
              else
                (head
                  ++ [Event.addTexture mat2 "diffuse" colorTex,
                      Event.addTexture mat2 "normal" normalTex,
                      Event.addTexture mat2 "orm" ormTex,
                      Event.bindMaterial meshPath2 mat2,
                      Event.saveStage], 0)

/-- Models `createComponentStage` in `createReferences.cpp`: build the
`Cube_2x2x2` component stage in memory (a 2x2x2 grid of cube meshes) and
export it next to the root stage; an empty result path signals failure. -/
def createComponentStage (e : Env) (args : Args) : List Event × Option String :=
  let stageDir := parentPathOf args.stagePath
  let ext := pathExtension args.stagePath
  let stagePath :=
    if stageDir = "" then "Cube_2x2x2" ++ ext
    else stageDir ++ "/" ++ "Cube_2x2x2" ++ ext
  if ¬ e.createInMemoryOk then ([Event.createInMemory], none)
  else
    let defPrim := ["Cube_2x2x2"]
    let cube (i j k : Nat) : List Event :=
      (createCubeMesh e defPrim
        ("Cube_" ++ toString i ++ "_" ++ toString j ++ "_" ++ toString k) 25
        ((i : ℚ) * 55 - 55/2, (j : ℚ) * 55 - 55/2, (k : ℚ) * 55 - 55/2)).2
    let events :=
      [Event.createInMemory, Event.configureStage "Cube_2x2x2",
       Event.define "Xform" defPrim]
      ++ cube 0 0 0 ++ cube 0 0 1 ++ cube 0 1 0 ++ cube 0 1 1
      ++ cube 1 0 0 ++ cube 1 0 1 ++ cube 1 1 0 ++ cube 1 1 1
      ++ [Event.exportLayer stagePath]
    if ¬ e.exportLayerOk stagePath then (events, none)
    else (events, some stagePath)

/-- Models `createReferences.cpp`: open or create a stage, build and export
the component stage, then author one xform carrying a reference and one
xform carrying a payload, both onto the same relative component path, with
overrides on the composed last children. -/
def createReferencesRun (e : Env) : Run :=
  withParsedArgs e fun args =>
    let pre := [Event.print ("Stage path: " ++ args.stagePath)]
    let acq := openOrCreateStage e args.stagePath
    if ¬ acq.2.1 then
      (pre ++ acq.1 ++ [Event.print "Error opening or creating stage, exiting"], -1)
    else
      let defPrim := acq.2.2
      let comp := createComponentStage e args
      match comp.2 with
      | none =>
        (pre ++ acq.1 ++ comp.1 ++ [Event.print "Error creating component stage, exiting"], -1)
      | some componentStagePath =>
        let stageParentPath := parentPathOf args.stagePath
        let relativeComponentPath :=
          if stageParentPath = "" then componentStagePath
          else e.proximate componentStagePath stageParentPath
        let referencePath := "./" ++ relativeComponentPath
        let refXform := defPrim ++ [e.validName defPrim "referencePrim"]
        let payXform := defPrim ++ [e.validName defPrim "payloadPrim"]
        (pre ++ acq.1 ++ comp.1
          ++ [Event.print ("Component stage: " ++ componentStagePath),
              Event.define "Xform" refXform,
              Event.addReference refXform referencePath]
          ++ (if e.lastChildXformable
              then [Event.setLocalTransform (refXform ++ [e.lastChildName])] else [])
          ++ [Event.define "Xform" payXform,
              Event.addPayload payXform referencePath]
          ++ (if e.lastChildMesh
              then [Event.setPrimvar (payXform ++ [e.lastChildName]) "displayColor"] else [])
          ++ [Event.saveStage], 0)

/-- Models `createAndBindAnimForSkel` in `createSkeleton.cpp`. -/
def createAndBindAnimForSkel (skel anim : List String) : List Event :=
  [ Event.define "SkelAnimation" anim,
    Event.setAttr anim "joints" (.tokList ["Shoulder/Elbow", "Shoulder/Elbow/Wrist"]),
    Event.setAttr anim "transforms" (.matList 2),
    Event.setAttr anim "transforms" (.matList 2),
    Event.setAttr anim "transforms" (.matList 2),
    Event.applyAPI skel "UsdSkelBindingAPI",
    Event.setRelationship skel "skel:animationSource" [anim] ]

/-- Models `createSkelMesh` in `createSkeleton.cpp`: a SkelRoot holding a
skeleton, its animation and a skinned quad mesh, with extents authored at
the default time and at the three animation time samples. Returns `none`
when the (constant) topology fails to validate. -/
def createSkelMesh (e : Env) (parent : List String) : Option (List String) × List Event :=
  let root := parent ++ [e.validName parent "skelRootGroup"]
  let names := e.validNamesN root ["skel", "anim", "skinnedMesh"]
  let skel := root ++ [names.getD 0 "skel"]
  let head :=
    [Event.define "SkelRoot" root, Event.setLocalTransform root,
     Event.define "Skeleton" skel]
  if ¬ e.topologyOk then
    (none, head ++ [Event.print ("Invalid skeleton topology: " ++ e.topologyReason)])
  else
    let anim := root ++ [names.getD 1 "anim"]
    let mesh := root ++ [names.getD 2 "skinnedMesh"]
    let extentPair (p : List String) := [Event.computeExtent p, Event.setAttr p "extent" .computed]
    (some root,
      head
      ++ [Event.setAttr skel "joints"
            (.tokList ["Shoulder", "Shoulder/Elbow", "Shoulder/Elbow/Wrist"]),
          Event.setAttr skel "bindTransforms" (.matList 3),
          Event.setAttr skel "restTransforms" (.matList 3)]
      ++ createAndBindAnimForSkel skel anim
      ++ [Event.setStageTimeMetadata,
          Event.define "Mesh" mesh,
          Event.applyAPI mesh "UsdSkelBindingAPI",
          Event.setRelationship mesh "skel:skeleton" [skel],
          Event.setPrimvar mesh "skel:jointIndices",
          Event.setPrimvar mesh "skel:jointWeights",
          Event.setAttr mesh "skel:geomBindTransform" (.matList 1)]
      ++ extentPair root ++ extentPair skel
      ++ extentPair root ++ extentPair skel
      ++ extentPair root ++ extentPair skel
      ++ extentPair root ++ extentPair skel)

/-- Models `createSkeleton.cpp`: open or create a stage, author the
skeletal mesh group, save. -/
def createSkeletonRun (e : Env) : Run :=
  withParsedArgs e fun args =>
    let pre := [Event.print ("Stage path: " ++ args.stagePath)]
    let acq := openOrCreateStage e args.stagePath
    if ¬ acq.2.1 then
      (pre ++ acq.1 ++ [Event.print "Error opening or creating stage, exiting"], -1)
    else
      let skel := createSkelMesh e acq.2.2
      match skel.1 with
      | none =>
        (pre ++ acq.1 ++ skel.2
          ++ [Event.print "Error creating skeletal mesh group, exiting"], -1)
      | some _ => (pre ++ acq.1 ++ skel.2 ++ [Event.saveStage], 0)

/-- Models `createPhysicsScene` in `createPhysics.cpp`: at most one physics
scene per stage. -/
def createPhysicsScene (e : Env) (defPrim : List String) : List Event :=
  if e.physicsSceneExists then []
  else [Event.define "PhysicsScene" (defPrim ++ [e.validName defPrim "PhysicsScene"])]

/-- Models `createGroundWithCollision` in `createPhysics.cpp`. -/
def createGroundWithCollision (e : Env) (defPrim : List String) : List Event × Bool :=
  if e.planeExists then ([], true)
  else
    let g := defPrim ++ [e.validName defPrim "ground"]
    if ¬ e.defineOk g then ([Event.define "Plane" g], false)
    else
      ([Event.define "Plane" g, Event.setAttr g "axis" (.tok e.stageUpAxis),
        Event.applyAPI g "PhysicsCollisionAPI", Event.setLocalTransform g], true)

/-- Models `simpleRigidBodiesAndCollisions` in `createPhysics.cpp`. -/
def simpleRigidBodiesAndCollisions (e : Env) (defPrim : List String) : List Event :=
  let group := defPrim ++ [e.validName defPrim "SimpleRigidBodies"]
  let sphere := createSphere e group "sphere" 30
    (some (0, 200, 0)) (some (0, 0, 0)) (some (1, 1, 1)) (some (1, 0, 0))
  let cube := createCube e group "cube" 50
    (some (120, 250, 0)) (some (50, 45, 0)) (some (1, 1, 1)) (some (0, 1, 0))
  [Event.define "Xform" group]
  ++ sphere.2
  ++ [Event.applyAPI sphere.1 "PhysicsRigidBodyAPI", Event.applyAPI sphere.1 "PhysicsCollisionAPI"]
  ++ cube.2
  ++ [Event.applyAPI cube.1 "PhysicsRigidBodyAPI", Event.applyAPI cube.1 "PhysicsCollisionAPI"]

/-- A capsule with rigid body and collision, as authored by the joint
demonstrations in `createPhysics.cpp` (capsule `i` of the row, under the
given parent, colored red for `i = 0` and green otherwise). -/
def physicsCapsule (e : Env) (parent : List String) (name : String) (i : Nat) : List Event :=
  let capsule := createCapsule e parent name "X" 80 10
    (some ((i : ℚ) * 102, 200, 0)) (some (0, 0, 0)) (some (1, 1, 1))
    (some (if i = 0 then ((1 : ℚ), (0 : ℚ), (0 : ℚ)) else (0, 1, 0)))
  capsule.2
  ++ [Event.applyAPI capsule.1 "PhysicsRigidBodyAPI", Event.applyAPI capsule.1 "PhysicsCollisionAPI"]

/-- Models `simplePhysicsFixedJoints` (three capsules, all call sites use
the default capsule count). The root fixed joint uses the literal name
`FixedJoint_root`. -/
def simplePhysicsFixedJoints (e : Env) (defPrim : List String) : List Event :=
  let base := defPrim ++ [e.validName defPrim "SimpleFixedJoints"]
  let joints := base ++ [e.validName base "joints"]
  let capsuleNames := e.validNamesN base ["capsule", "capsule", "capsule"]
  let jointNames := e.validNamesN joints ["FixedJoint", "FixedJoint", "FixedJoint"]
  [Event.define "Xform" base, Event.define "Xform" joints]
  ++ physicsCapsule e base (capsuleNames.getD 0 "capsule") 0
  ++ physicsCapsule e base (capsuleNames.getD 1 "capsule") 1
  ++ physicsCapsule e base (capsuleNames.getD 2 "capsule") 2
  ++ [Event.define "PhysicsFixedJoint" (joints ++ ["FixedJoint_root"]),
      Event.define "PhysicsFixedJoint" (joints ++ [jointNames.getD 1 "FixedJoint"]),
      Event.define "PhysicsFixedJoint" (joints ++ [jointNames.getD 2 "FixedJoint"])]

/-- Models `simplePhysicsRevoluteJoints` (three capsules). -/
def simplePhysicsRevoluteJoints (e : Env) (defPrim : List String) : List Event :=
  let base := defPrim ++ [e.validName defPrim "SimpleRevoluteJoints"]
  let joints := base ++ [e.validName base "joints"]
  let capsuleNames := e.validNamesN base ["capsule", "capsule", "capsule"]
  let jointNames := e.validNamesN joints ["RevoluteJoint", "RevoluteJoint", "RevoluteJoint"]
  [Event.define "Xform" base, Event.define "Xform" joints]
  ++ physicsCapsule e base (capsuleNames.getD 0 "capsule") 0
  ++ physicsCapsule e base (capsuleNames.getD 1 "capsule") 1
  ++ physicsCapsule e base (capsuleNames.getD 2 "capsule") 2
  ++ [Event.define "PhysicsFixedJoint" (joints ++ [e.validName joints "FixedJoint_root"]),
      Event.define "PhysicsRevoluteJoint" (joints ++ [jointNames.getD 1 "RevoluteJoint"]),
      Event.define "PhysicsRevoluteJoint" (joints ++ [jointNames.getD 2 "RevoluteJoint"])]

/-- Models `simplePhysicsPrismaticJoints` (three capsules, under a tilted
xform). -/
def simplePhysicsPrismaticJoints (e : Env) (defPrim : List String) : List Event :=
  let base := defPrim ++ [e.validName defPrim "SimplePrismaticJoints"]
  let joints := base ++ [e.validName base "joints"]
  let tilt := base ++ [e.validName base "tilt"]
  let capsuleNames := e.validNamesN tilt ["capsule", "capsule", "capsule"]
  let jointNames := e.validNamesN joints ["PrismaticJoint", "PrismaticJoint", "PrismaticJoint"]
  [Event.define "Xform" base, Event.define "Xform" joints, Event.define "Xform" tilt]
  ++ physicsCapsule e tilt (capsuleNames.getD 0 "capsule") 0
  ++ physicsCapsule e tilt (capsuleNames.getD 1 "capsule") 1
  ++ physicsCapsule e tilt (capsuleNames.getD 2 "capsule") 2
  ++ [Event.define "PhysicsFixedJoint" (joints ++ [e.validName joints "FixedJoint_root"]),
      Event.define "PhysicsPrismaticJoint" (joints ++ [jointNames.getD 1 "PrismaticJoint"]),
      Event.define "PhysicsPrismaticJoint" (joints ++ [jointNames.getD 2 "PrismaticJoint"])]

/-- Models `simplePhysicsSphericalJoints` (three capsules). -/
def simplePhysicsSphericalJoints (e : Env) (defPrim : List String) : List Event :=
  let base := defPrim ++ [e.validName defPrim "SimpleSphericalJoints"]
  let joints := base ++ [e.validName base "joints"]
  let capsuleNames := e.validNamesN base ["capsule", "capsule", "capsule"]
  let jointNames := e.validNamesN joints ["SphericalJoint", "SphericalJoint", "SphericalJoint"]
  [Event.define "Xform" base, Event.define "Xform" joints]
  ++ physicsCapsule e base (capsuleNames.getD 0 "capsule") 0
  ++ physicsCapsule e base (capsuleNames.getD 1 "capsule") 1
  ++ physicsCapsule e base (capsuleNames.getD 2 "capsule") 2
  ++ [Event.define "PhysicsFixedJoint" (joints ++ [e.validName joints "FixedJoint_root"]),
      Event.define "PhysicsSphericalJoint" (joints ++ [jointNames.getD 1 "SphericalJoint"]),
      Event.define "PhysicsSphericalJoint" (joints ++ [jointNames.getD 2 "SphericalJoint"])]

/-- Models `physicsMaterials` in `createPhysics.cpp`: three ramp/cube
pairs sharing slippery, rough and bouncy physics materials. -/
def physicsMaterials (e : Env) (defPrim : List String) : List Event :=
  let base := defPrim ++ [e.validName defPrim "physicsMaterials"]
  let ramps := base ++ [e.validName base "ramps"]
  let cubes := base ++ [e.validName base "cubes"]
  let rampNames := e.validNamesN ramps ["ramp", "ramp", "ramp"]
  let cubeNames := e.validNamesN cubes ["cube", "cube", "cube"]
  let rampCube (i : Nat) : (List String × List String) × List Event :=
    let pz : ℚ := -100 + (i : ℚ) * 100
    let ramp := createCube e ramps (rampNames.getD i "ramp") 100
      (some (20, 20, pz)) (some (0, 0, -10)) (some (5/2, 1/20, 4/5)) (some (0, 1, 0))
    let cube := createCube e cubes (cubeNames.getD i "cube") 30
      (some (-60, 160, pz)) (some (0, 0, 0)) (some (1, 1, 1)) (some (0, 0, 1))
    ((ramp.1, cube.1),
      ramp.2 ++ [Event.applyAPI ramp.1 "PhysicsCollisionAPI"]
      ++ cube.2
      ++ [Event.applyAPI cube.1 "PhysicsRigidBodyAPI", Event.applyAPI cube.1 "PhysicsCollisionAPI"])
  let rc0 := rampCube 0
  let rc1 := rampCube 1
  let rc2 := rampCube 2
  let scope := base ++ [e.validName base "physicsMaterials"]
  let matNames := e.validNamesN scope ["slippery", "rough", "bouncy"]
  let mat0 := scope ++ [matNames.getD 0 "slippery"]
  let mat1 := scope ++ [matNames.getD 1 "rough"]
  let mat2 := scope ++ [matNames.getD 2 "bouncy"]
  [Event.define "Xform" base, Event.define "Xform" ramps, Event.define "Xform" cubes]
  ++ rc0.2 ++ rc1.2 ++ rc2.2
  ++ [Event.define "Scope" scope,
      Event.define "Material" mat0, Event.define "Material" mat1, Event.define "Material" mat2,
      Event.bindMaterial rc0.1.1 mat0, Event.bindMaterial rc0.1.2 mat0,
      Event.bindMaterial rc1.1.1 mat1, Event.bindMaterial rc1.1.2 mat1,
      Event.bindMaterial rc2.1.1 mat2, Event.bindMaterial rc2.1.2 mat2]

/-- Models `createPhysics.cpp`: open or create a stage, author the physics
scene, a colliding ground plane (checked), rigid bodies, four joint rows
and the physics materials, save. -/
def createPhysicsRun (e : Env) : Run :=
  withParsedArgs e fun args =>
    let pre := [Event.print ("Stage path: " ++ args.stagePath)]
    let acq := openOrCreateStage e args.stagePath
    if ¬ acq.2.1 then
      (pre ++ acq.1 ++ [Event.print "Error opening or creating stage, exiting"], -1)
    else
      let defPrim := acq.2.2
      let ground := createGroundWithCollision e defPrim
      if ¬ ground.2 then
        (pre ++ acq.1 ++ createPhysicsScene e defPrim ++ ground.1
          ++ [Event.print "Error creating ground, exiting"], -1)
      else
        (pre ++ acq.1 ++ createPhysicsScene e defPrim ++ ground.1
          ++ simpleRigidBodiesAndCollisions e defPrim
          ++ simplePhysicsFixedJoints e defPrim
          ++ simplePhysicsRevoluteJoints e defPrim
          ++ simplePhysicsPrismaticJoints e defPrim
          ++ simplePhysicsSphericalJoints e defPrim
          ++ physicsMaterials e defPrim
          ++ [Event.saveStage], 0)

/-- Models `createAsset` in `createAsset.cpp`: an atomic FlowerPlanter
component asset with geometry and material libraries, content layers and
an asset interface. Returns the asset stage path on success. -/
def createAsset (e : Env) (args : Args) : Option String × List Event :=
  let stageDir := parentPathOf args.stagePath
  let assetPath :=
    if stageDir = "" then "FlowerPlanter.usda"
    else stageDir ++ "/" ++ "FlowerPlanter.usda"
  if ¬ e.createStageOk assetPath then
    (none, [Event.createStage assetPath "FlowerPlanter"])
  else
    let assetDefPrim := ["FlowerPlanter"]
    let head :=
      [Event.createStage assetPath "FlowerPlanter",
       Event.define "Xform" assetDefPrim,
       Event.setDisplayName assetDefPrim "🌻",
       Event.createAssetPayload]
    if ¬ e.assetPayloadOk then (none, head)
    else
      let geomLib := e.libraryDefaultPrim "Geometry"
      let planter := createCylinder e geomLib "Planter" e.fallbackUpAxis 10 15
      let stem := createCylinder e geomLib "Stem" e.fallbackUpAxis 20 1
      let petal := createCylinder e geomLib "Petal" e.fallbackUpAxis (5/2) 8
      let matLib := e.libraryDefaultPrim "Materials"
      let clay := matLib ++ ["Clay"]
      let greenStem := matLib ++ ["GreenStem"]
      let yellowPetals := matLib ++ ["YellowPetals"]
      let geomScope := e.contentDefaultPrim "Geometry" ++ ["Geometry"]
      let structurePath := geomScope ++ ["FlowerPlanterStructure"]
      let planterRef := structurePath ++ [planter.1.getLastD "Planter"]
      let flowerNames := e.validNamesN structurePath ["Flower", "Flower", "Flower"]
      let flower (i : Nat) : List Event :=
        let flowerPath := structurePath ++ [flowerNames.getD i "Flower"]
        let stemX := flowerPath ++ ["StemXform"]
        let petalX := stemX ++ ["PetalXform"]
        [Event.define "Xform" flowerPath,
         Event.define "Xform" stemX, Event.setLocalTransform stemX,
         Event.defineReference (stemX ++ [stem.1.getLastD "Stem"]) stem.1,
         Event.define "Xform" petalX, Event.setLocalTransform petalX,
         Event.defineReference (petalX ++ [petal.1.getLastD "Petal"]) petal.1]
      let materialsScope := e.contentDefaultPrim "Materials" ++ ["Materials"]
      let clayRef := materialsScope ++ [clay.getLastD "Clay"]
      let greenRef := materialsScope ++ [greenStem.getLastD "GreenStem"]
      let yellowRef := materialsScope ++ [yellowPetals.getLastD "YellowPetals"]
      let overrides (i : Nat) : List Event :=
        let flowerPath := structurePath ++ [flowerNames.getD i "Flower"]
        let stemPath := flowerPath ++ ["StemXform", "Stem"]
        let petalPath := flowerPath ++ ["StemXform", "PetalXform", "Petal"]
        [Event.overridePrim stemPath, Event.overridePrim petalPath]
        ++ (if e.overrideOk stemPath then [Event.bindMaterial stemPath greenRef] else [])
        ++ (if e.overrideOk petalPath then [Event.bindMaterial petalPath yellowRef] else [])
      (some assetPath,
        head
        ++ [Event.addAssetLibrary "Geometry"]
        ++ planter.2 ++ stem.2 ++ petal.2
        ++ [Event.addAssetLibrary "Materials",
            Event.define "Material" clay,
            Event.define "Material" greenStem,
            Event.define "Material" yellowPetals,
            Event.addAssetContent "Geometry",
            Event.define "Xform" structurePath,
            Event.defineReference planterRef planter.1,
            Event.setLocalTransform planterRef]
        ++ flower 0 ++ flower 1 ++ flower 2
        ++ [Event.addAssetContent "Materials",
            Event.defineReference clayRef clay,
            Event.defineReference greenRef greenStem,
            Event.defineReference yellowRef yellowPetals,
            Event.overridePrim planterRef,
            Event.bindMaterial planterRef clayRef]
        ++ overrides 0 ++ overrides 1 ++ overrides 2
        ++ [Event.addAssetInterface])

/-- Models `createAsset.cpp`: open or create a stage, mark the world as an
assembly, build the asset (checked), reference it with a transform, save. -/
def createAssetRun (e : Env) : Run :=
  withParsedArgs e fun args =>
    let pre := [Event.print ("Stage path: " ++ args.stagePath)]
    let acq := openOrCreateStage e args.stagePath
    if ¬ acq.2.1 then
      (pre ++ acq.1 ++ [Event.print "Error opening or creating stage, exiting"], -1)
    else
      let defPrim := acq.2.2
      let asset := createAsset e args
      match asset.1 with
      | none =>
        (pre ++ acq.1 ++ [Event.setKind defPrim "assembly"] ++ asset.2
          ++ [Event.print "Error creating asset stage, exiting"], -1)
      | some assetPath =>
        (pre ++ acq.1 ++ [Event.setKind defPrim "assembly"] ++ asset.2
          ++ [Event.print ("Asset stage: " ++ assetPath),
              Event.defineReference (defPrim ++ ["FlowerPlanter"]) ["FlowerPlanter"],
              Event.setLocalTransform (defPrim ++ ["FlowerPlanter"]),
              Event.saveStage], 0)

/-! ## Composed prims (`getLastChildPrim` in `createReferences.cpp`) -/

/-- A composed prim: a name and its children in order, as exposed by
`GetAllChildrenNames` and `GetChild`. -/
inductive Prim where
  | node (name : String) (children : List Prim)

/-- The prim name. -/
def Prim.name : Prim → String
  | .node n _ => n

/-- The children, in the order `GetAllChildrenNames` reports. -/
def Prim.children : Prim → List Prim
  | .node _ cs => cs

/-- Models `UsdPrim::GetAllChildrenNames`. -/
def Prim.getAllChildrenNames (p : Prim) : List String :=
  p.children.map Prim.name

/-- Models `UsdPrim::GetChild`: the child carrying the given name. -/
def Prim.getChild (p : Prim) (n : String) : Option Prim :=
  p.children.find? (fun c => c.name = n)

/-- Models `getLastChildPrim` in `createReferences.cpp`. The C++ calls
`childNames.back()` unconditionally; `none` records the out-of-bounds
access that `back()` performs on an empty name vector. -/
def getLastChildPrim (parent : Prim) : Option Prim :=
  match parent.getAllChildrenNames.getLast? with
  | none => none
  | some n => parent.getChild n

/-! ## Environments used to exercise the models -/

/-- An environment in which every external call succeeds: a fresh stage is
created at the default path, proposed names are already valid, and the file
system raises no errors. -/
def defaultEnv : Env where
  tmpDir := "/tmp"
  cmd := some { usda := false, help := false, path := none }
  argc := 2
  argv1 := "/tmp/usdex/sample.usdc"
  execPath := "/opt/samples/bin/app"
  fallbackUpAxis := "Y"
  stageUpAxis := "Y"
  findLayer := fun _ => false
  openStageOk := fun _ => true
  createStageOk := fun _ => true
  createInMemoryOk := true
  exportLayerOk := fun _ => true
  defaultPrimOf := fun _ => "World"
  validNames := fun _ ns => ns
  validPrimName := fun n => n
  proximate := fun p _ => p
  dirCreateErr := fun _ => none
  copyErr := fun _ => none
  polyMeshOk := fun _ => true
  defineOk := fun _ => true
  topologyOk := true
  topologyReason := ""
  physicsSceneExists := false
  planeExists := false
  foundXformable := false
  foundXformablePath := []
  lastChildXformable := true
  lastChildMesh := true
  lastChildName := "Cube_0_0_0"
  assetPayloadOk := true
  overrideOk := fun _ => true
  libraryDefaultPrim := fun _ => ["Asset"]
  contentDefaultPrim := fun _ => ["FlowerPlanter"]
  upAxisStr := "Y"
  metersPerUnitStr := "0.01"
  traverseLines := []
  origDisplayName := ""
  origEffectiveName := "World"
  curEffectiveName := "rocket"
  semanticsLines := []

/-- The all-success environment except that stage creation fails. -/
def stageFailEnv : Env :=
  { defaultEnv with createStageOk := fun _ => false }

/-- The all-success environment except that the textures directory cannot
be created and the texture copy fails. -/
def copyFailEnv : Env :=
  { defaultEnv with
      dirCreateErr := fun _ => some "Permission denied",
      copyErr := fun _ => some "No such file or directory" }

/-! ## Shared lemmas -/

/-- Indexing a primvar does not change its interpolation token. -/
theorem PrimvarData.interpolation_index {α : Type} [DecidableEq α] (pd : PrimvarData α) :
    pd.index.interpolation = pd.interpolation := rfl

/-- Indexing a primvar yields one index per original value, so the
effective element count is unchanged. -/
theorem PrimvarData.effectiveSize_index {α : Type} [DecidableEq α] (pd : PrimvarData α) :
    pd.index.effectiveSize = pd.values.length := by
  simp [PrimvarData.index, PrimvarData.effectiveSize]

/-- Case-insensitively equal strings have the same length. -/
theorem iequals_length (a b : String) (h : iequals a b = true) :
    a.toList.length = b.toList.length := by
  simp only [iequals, Bool.and_eq_true, decide_eq_true_eq] at h
  exact h.1

/-- The last element of a list ending in a singleton append. -/
theorem getLast?_append_single {α : Type} (l : List α) (a : α) :
    (l ++ [a]).getLast? = some a := by
  rw [List.getLast?_append_cons]
  rfl

/-- The last element survives a further cons in front. -/
theorem getLast?_cons_append_single {α : Type} (x : α) (l : List α) (a : α) :
    (x :: (l ++ [a])).getLast? = some a := by
  rw [← List.cons_append]
  exact getLast?_append_single _ _

/-- The last element of a cons is the last element of its nonempty tail. -/
theorem getLast?_cons_of_ne_nil {α : Type} (x : α) {l : List α} (h : l ≠ []) :
    (x :: l).getLast? = l.getLast? := by
  cases l with
  | nil => exact absurd rfl h
  | cons y ys => exact List.getLast?_cons_cons

/-- The common option parser only ever exits with status 0 (help) or 2
(bad or inconsistent arguments). -/
theorem parseCommonOptions_exit_codes (tmpDir : String) (cmd : Option CmdResult) (c : Int)
    (h : parseCommonOptions tmpDir cmd = .exited c) : c = 0 ∨ c = 2 := by
  rcases cmd with _ | r
  · simp [parseCommonOptions] at h
    omega
  · cases hh : r.help with
    | true =>
      simp [parseCommonOptions, hh] at h
      omega
    | false =>
      rcases hp : r.path with _ | p
      · simp [parseCommonOptions, hh, hp] at h
      · simp [parseCommonOptions, hh, hp] at h
        split_ifs at h <;> simp_all

/-- The stage-acquisition step of a sample: either a direct create, or the
find-or-open helper resolving to a create or an open. -/
def isStageAcquire (p : String) (t : List Event) : Prop :=
  t = [Event.createStage p "World"] ∨
  t = [Event.findOrOpenLayer p false, Event.createStage p "World"] ∨
  t = [Event.findOrOpenLayer p true, Event.openStage p]

/-- The events of `openOrCreateStage` form a stage acquisition. -/
theorem openOrCreate_acquire (e : Env) (p : String) :
    isStageAcquire p (openOrCreateStage e p "World").1 := by
  unfold openOrCreateStage isStageAcquire
  split_ifs <;> simp

/-- The four-step shape of an authoring sample: when the option parser
returns and the run succeeds, the trace is argument parsing, then the
stage print and acquisition, then authoring, and finally the save. -/
def fourStepShape (f : Env → Run) : Prop :=
  ∀ (e : Env) (args : Args),
    parseCommonOptions e.tmpDir e.cmd = .returned args →
    (f e).exit = 0 →
    ∃ acq mid, isStageAcquire args.stagePath acq ∧
      (f e).trace =
        [Event.parseArgs, Event.print ("Stage path: " ++ args.stagePath)] ++ acq ++ mid
          ++ [Event.saveStage]

/-- The exit-status classification of an authoring sample: success, a
detected failure (-1), or an option-parser exit (0 via help or 2). -/
def exitStatusPolicy (f : Env → Run) : Prop :=
  ∀ e : Env, (f e).exit = 0 ∨ (f e).exit = -1 ∨ (f e).exit = 2

/-- The failure-diagnostic policy of an authoring sample: a run that exits
with -1 ends its trace with an error line — nothing runs past the
diagnostic. -/
def failStopPolicy (f : Env → Run) : Prop :=
  ∀ e : Env, (f e).exit = -1 →
    ∃ m, (f e).trace.getLast? = some (Event.print m) ∧ startsWithError m = true

/-! ## Claim theorems -/

/-- C5: `createCubeMesh` authors normals and UVs as `vertex`-interpolated
primvars and display color as a `constant` primvar, and the mesh data it
passes to `definePolyMesh` is self-consistent: 12 faces of 3 vertices
each, 36 face-vertex indices all below 24, and 24 points, normals and UV
values (for the indexed primvars, 24 effective elements). -/
theorem createCubeMesh_primvars_and_counts :
    ∀ (e : Env) (parent : List String) (meshName : String) (h : ℚ),
      (createCubeMeshArgs e parent meshName h).normals.interpolation = "vertex" ∧
      (createCubeMeshArgs e parent meshName h).uvs.interpolation = "vertex" ∧
      (createCubeMeshArgs e parent meshName h).displayColor.interpolation = "constant" ∧
      (createCubeMeshArgs e parent meshName h).faceVertexCounts.length = 12 ∧
      (∀ c ∈ (createCubeMeshArgs e parent meshName h).faceVertexCounts, c = 3) ∧
      (createCubeMeshArgs e parent meshName h).faceVertexIndices.length = 36 ∧
      (∀ i ∈ (createCubeMeshArgs e parent meshName h).faceVertexIndices, i < 24) ∧
      (createCubeMeshArgs e parent meshName h).points.length = 24 ∧
      (createCubeMeshArgs e parent meshName h).normals.effectiveSize = 24 ∧
      (createCubeMeshArgs e parent meshName h).uvs.effectiveSize = 24 := by
  intro e parent meshName h
  refine ⟨rfl, rfl, rfl, ?_, ?_, ?_, ?_, ?_, ?_, ?_⟩
  · show (List.replicate 12 3).length = 12
    simp
  · intro c hc
    exact List.eq_of_mem_replicate hc
  · show cubeVertexIndices.length = 36
    rfl
  · show ∀ i ∈ cubeVertexIndices, i < 24
    decide
  · show (cubePoints h).length = 24
    rfl
  · show (PrimvarData.mk "vertex" cubeNormals none).index.effectiveSize = 24
    rw [PrimvarData.effectiveSize_index]
    rfl
  · show (PrimvarData.mk "vertex" cubeUV none).index.effectiveSize = 24
    rw [PrimvarData.effectiveSize_index]
    rfl

/-- Whether a trace contains a file-copy call. -/
def containsCopy (t : List Event) : Bool :=
  t.any (fun ev => match ev with
    | .copyFile _ _ => true
    | _ => false)

/-- The texture helper always attempts the file copy, in every
environment, including those whose directory creation failed. -/
theorem containsCopy_copyTexture :
    ∀ (e : Env) (stagePath textureFile : String),
      containsCopy (copyTextureToStagePath e stagePath textureFile).1 = true := by
  intro e stagePath textureFile
  simp only [copyTextureToStagePath, containsCopy, List.any_append, List.any_cons]
  rcases e.dirCreateErr _ with _ | m <;> rcases e.copyErr _ with _ | m' <;> simp

/-- C9: `copyTextureToStagePath` returns `./textures/<textureFile>` for
every environment — whether or not the directory creation or the file copy
fails — and it always attempts the copy. -/
theorem copyTextureToStagePath_returns_relative :
    ∀ (e : Env) (stagePath textureFile : String),
      (copyTextureToStagePath e stagePath textureFile).2 =
        "./textures/" ++ textureFile ∧
      containsCopy (copyTextureToStagePath e stagePath textureFile).1 = true := by
  intro e stagePath textureFile
  constructor
  · show ("./" ++ "textures" ++ "/") ++ textureFile = "./textures/" ++ textureFile
    rfl
  · exact containsCopy_copyTexture e stagePath textureFile

/-- C10: `getLastChildPrim` requires a parent with at least one child;
under that precondition it returns the child whose name is last in
`GetAllChildrenNames` and the `back()` access is in bounds, while for a
childless parent the name vector is empty and the access is out of
bounds (modelled as `none`). -/
theorem getLastChildPrim_spec :
    (∀ p : Prim, p.children ≠ [] →
      ∃ c, getLastChildPrim p = some c ∧
        some c.name = p.getAllChildrenNames.getLast?) ∧
    (∀ p : Prim, p.children = [] → getLastChildPrim p = none) := by
  constructor
  · intro p hp
    have hn : p.getAllChildrenNames ≠ [] := by
      simp only [Prim.getAllChildrenNames, ne_eq, List.map_eq_nil_iff]
      exact hp
    match hlast : p.getAllChildrenNames.getLast? with
    | none =>
      exact absurd (List.getLast?_eq_none_iff.mp hlast) hn
    | some n =>
      have hmem : n ∈ p.getAllChildrenNames := by
        obtain ⟨hne, heq⟩ := List.mem_getLast?_eq_getLast (l := p.getAllChildrenNames) hlast
        rw [heq]
        exact List.getLast_mem hne
      obtain ⟨c, hc, hcn⟩ := List.mem_map.mp hmem
      have hsome : (p.children.find? (fun c => c.name = n)).isSome := by
        rw [List.find?_isSome]
        exact ⟨c, hc, by simp [hcn]⟩
      obtain ⟨c', hc'⟩ := Option.isSome_iff_exists.mp hsome
      refine ⟨c', ?_, ?_⟩
      · simp [getLastChildPrim, hlast, Prim.getChild, hc']
      · have hp' := List.find?_some hc'
        simp only [decide_eq_true_eq] at hp'
        rw [hp']
  · intro p hp
    simp [getLastChildPrim, Prim.getAllChildrenNames, hp]

/-- Witness for C10: a parent with two children yields its last child. -/
theorem getLastChildPrim_spec_witness :
    (Prim.node "World" [Prim.node "first" [], Prim.node "second" []]).children ≠ [] ∧
    ∃ c, getLastChildPrim (Prim.node "World" [Prim.node "first" [], Prim.node "second" []]) =
        some c ∧
      some c.name =
        (Prim.node "World" [Prim.node "first" [], Prim.node "second" []]).getAllChildrenNames.getLast? :=
  ⟨by simp [Prim.children], getLastChildPrim_spec.1 _ (by simp [Prim.children])⟩

/-- C8 counterexample: with `--help` also on the command line, the
inconsistent `--usda`/`.usdc` combination exits with status 0 (the help
path), not 2, so the claimed postcondition does not hold unconditionally. -/
theorem parseCommonOptions_help_first :
    parseCommonOptions "/tmp" (some { usda := true, help := true, path := some "stage.usdc" }) =
      .exited 0 ∧
    ParseOutcome.exited 0 ≠ ParseOutcome.exited 2 := by
  constructor
  · rfl
  · decide

/-- C8 (amended with: absent `--help`, which exits 0 first, and given a
command line `cxxopts` accepts): `--usda` with a `--path` whose extension
is `.usdc` case-insensitively exits with status 2; `--usda` with a `.usd`
path returns exactly the file-format argument steering the layer to the
text format; in every other case the format arguments are empty and the
stage path is the `--path` value, or the default `.usda` path under
`--usda`, or the default `.usdc` path. -/
theorem parseCommonOptions_postcondition :
    ∀ (tmpDir : String) (r : CmdResult), r.help = false →
      (∀ p, r.path = some p → r.usda = true →
        iequals (pathExtension p) ".usdc" = true →
        parseCommonOptions tmpDir (some r) = .exited 2) ∧
      (∀ p, r.path = some p → r.usda = true →
        iequals (pathExtension p) ".usd" = true →
        parseCommonOptions tmpDir (some r) =
          .returned { stagePath := p,
                      fileFormatArgs := [(usdFormatArgToken, usdaFormatId)] }) ∧
      (∀ p, r.path = some p →
        (r.usda = false ∨
          (iequals (pathExtension p) ".usdc" = false ∧
           iequals (pathExtension p) ".usd" = false)) →
        parseCommonOptions tmpDir (some r) =
          .returned { stagePath := p, fileFormatArgs := [] }) ∧
      (r.path = none →
        parseCommonOptions tmpDir (some r) =
          .returned
            { stagePath := getDefaultStagePath tmpDir (if r.usda then ".usda" else ".usdc"),
              fileFormatArgs := [] }) := by
  intro tmpDir r hhelp
  refine ⟨?_, ?_, ?_, ?_⟩
  · intro p hp husda hext
    simp [parseCommonOptions, hhelp, hp, husda, hext]
  · intro p hp husda hext
    have hc : iequals (pathExtension p) ".usdc" = false := by
      cases hb : iequals (pathExtension p) ".usdc"
      · rfl
      · have h4 := iequals_length _ _ hext
        have h5 := iequals_length _ _ hb
        rw [h4] at h5
        exact absurd h5 (by decide)
    simp [parseCommonOptions, hhelp, hp, husda, hc, hext]
  · intro p hp hcase
    rcases hcase with husda | ⟨hc, hd⟩
    · simp [parseCommonOptions, hhelp, hp, husda]
    · simp [parseCommonOptions, hhelp, hp, hc, hd]
  · intro hp
    cases husda : r.usda <;> simp [parseCommonOptions, hhelp, hp, husda]

/-- Witness for C8: a `--usda --path a.usdc` command line exits with 2,
and a `--usda --path a.usd` command line returns the steering format
argument. -/
theorem parseCommonOptions_postcondition_witness :
    parseCommonOptions "/tmp" (some { usda := true, help := false, path := some "a.usdc" }) =
      .exited 2 ∧
    parseCommonOptions "/tmp" (some { usda := true, help := false, path := some "a.usd" }) =
      .returned { stagePath := "a.usd",
                  fileFormatArgs := [(usdFormatArgToken, usdaFormatId)] } :=
  ⟨(parseCommonOptions_postcondition "/tmp" _ rfl).1 "a.usdc" rfl rfl (by decide),
   (parseCommonOptions_postcondition "/tmp" _ rfl).2.1 "a.usd" rfl rfl (by decide)⟩

/-- C4: each geometric-primitive helper defines its typed prim as a child
of the parent under the valid unique name obtained from
`getValidChildNames`, sets the shape dimension attributes to the supplied
values, and computes and sets the extent. -/
theorem primitive_helpers_thin_wrappers :
    (∀ (e : Env) (parent : List String) (name axis : String) (height radius : ℚ)
        (pos rot scl col : Option Vec3),
      (createCone e parent name axis height radius pos rot scl col).1 =
          parent ++ [e.validName parent name] ∧
        Event.define "Cone" (createCone e parent name axis height radius pos rot scl col).1 ∈
          (createCone e parent name axis height radius pos rot scl col).2 ∧
        Event.setAttr (createCone e parent name axis height radius pos rot scl col).1
            "height" (.d height) ∈
          (createCone e parent name axis height radius pos rot scl col).2 ∧
        Event.setAttr (createCone e parent name axis height radius pos rot scl col).1
            "radius" (.d radius) ∈
          (createCone e parent name axis height radius pos rot scl col).2 ∧
        Event.computeExtent (createCone e parent name axis height radius pos rot scl col).1 ∈
          (createCone e parent name axis height radius pos rot scl col).2 ∧
        Event.setAttr (createCone e parent name axis height radius pos rot scl col).1
            "extent" .computed ∈
          (createCone e parent name axis height radius pos rot scl col).2) ∧
    (∀ (e : Env) (parent : List String) (name : String) (radius : ℚ)
        (pos rot scl col : Option Vec3),
      (createSphere e parent name radius pos rot scl col).1 =
          parent ++ [e.validName parent name] ∧
        Event.define "Sphere" (createSphere e parent name radius pos rot scl col).1 ∈
          (createSphere e parent name radius pos rot scl col).2 ∧
        Event.setAttr (createSphere e parent name radius pos rot scl col).1
            "radius" (.d radius) ∈
          (createSphere e parent name radius pos rot scl col).2 ∧
        Event.computeExtent (createSphere e parent name radius pos rot scl col).1 ∈
          (createSphere e parent name radius pos rot scl col).2 ∧
        Event.setAttr (createSphere e parent name radius pos rot scl col).1
            "extent" .computed ∈
          (createSphere e parent name radius pos rot scl col).2) ∧
    (∀ (e : Env) (parent : List String) (name : String) (size : ℚ)
        (pos rot scl col : Option Vec3),
      (createCube e parent name size pos rot scl col).1 =
          parent ++ [e.validName parent name] ∧
        Event.define "Cube" (createCube e parent name size pos rot scl col).1 ∈
          (createCube e parent name size pos rot scl col).2 ∧
        Event.setAttr (createCube e parent name size pos rot scl col).1
            "size" (.d size) ∈
          (createCube e parent name size pos rot scl col).2 ∧
        Event.computeExtent (createCube e parent name size pos rot scl col).1 ∈
          (createCube e parent name size pos rot scl col).2 ∧
        Event.setAttr (createCube e parent name size pos rot scl col).1
            "extent" .computed ∈
          (createCube e parent name size pos rot scl col).2) ∧
    (∀ (e : Env) (parent : List String) (name axis : String) (height radius : ℚ)
        (pos rot scl col : Option Vec3),
      (createCylinder e parent name axis height radius pos rot scl col).1 =
          parent ++ [e.validName parent name] ∧
        Event.define "Cylinder"
            (createCylinder e parent name axis height radius pos rot scl col).1 ∈
          (createCylinder e parent name axis height radius pos rot scl col).2 ∧
        Event.setAttr (createCylinder e parent name axis height radius pos rot scl col).1
            "height" (.d height) ∈
          (createCylinder e parent name axis height radius pos rot scl col).2 ∧
        Event.setAttr (createCylinder e parent name axis height radius pos rot scl col).1
            "radius" (.d radius) ∈
          (createCylinder e parent name axis height radius pos rot scl col).2 ∧
        Event.computeExtent
            (createCylinder e parent name axis height radius pos rot scl col).1 ∈
          (createCylinder e parent name axis height radius pos rot scl col).2 ∧
        Event.setAttr (createCylinder e parent name axis height radius pos rot scl col).1
            "extent" .computed ∈
          (createCylinder e parent name axis height radius pos rot scl col).2) ∧
    (∀ (e : Env) (parent : List String) (name axis : String) (height radius : ℚ)
        (pos rot scl col : Option Vec3),
      (createCapsule e parent name axis height radius pos rot scl col).1 =
          parent ++ [e.validName parent name] ∧
        Event.define "Capsule"
            (createCapsule e parent name axis height radius pos rot scl col).1 ∈
          (createCapsule e parent name axis height radius pos rot scl col).2 ∧
        Event.setAttr (createCapsule e parent name axis height radius pos rot scl col).1
            "height" (.d height) ∈
          (createCapsule e parent name axis height radius pos rot scl col).2 ∧
        Event.setAttr (createCapsule e parent name axis height radius pos rot scl col).1
            "radius" (.d radius) ∈
          (createCapsule e parent name axis height radius pos rot scl col).2 ∧
        Event.computeExtent
            (createCapsule e parent name axis height radius pos rot scl col).1 ∈
          (createCapsule e parent name axis height radius pos rot scl col).2 ∧
        Event.setAttr (createCapsule e parent name axis height radius pos rot scl col).1
            "extent" .computed ∈
          (createCapsule e parent name axis height radius pos rot scl col).2) := by
  refine ⟨?_, ?_, ?_, ?_, ?_⟩
  · intros
    refine ⟨rfl, ?_, ?_, ?_, ?_, ?_⟩ <;>
      simp [createCone, setOmniverseRefinement, setExtents]
  · intros
    refine ⟨rfl, ?_, ?_, ?_, ?_⟩ <;>
      simp [createSphere, setOmniverseRefinement, setExtents]
  · intros
    refine ⟨rfl, ?_, ?_, ?_, ?_⟩ <;>
      simp [createCube, setExtents]
  · intros
    refine ⟨rfl, ?_, ?_, ?_, ?_, ?_⟩ <;>
      simp [createCylinder, setOmniverseRefinement, setExtents]
  · intros
    refine ⟨rfl, ?_, ?_, ?_, ?_, ?_⟩ <;>
      simp [createCapsule, setOmniverseRefinement, setExtents]

/-- Projection selecting `AddReference` calls from a trace. -/
def refsProj : Event → Option (List String × String)
  | .addReference p t => some (p, t)
  | _ => none

/-- Projection selecting `AddPayload` calls from a trace. -/
def paysProj : Event → Option (List String × String)
  | .addPayload p t => some (p, t)
  | _ => none

/-- The references authored in a trace, with their prims and targets. -/
def traceReferences (t : List Event) : List (List String × String) :=
  t.filterMap refsProj

/-- The payloads authored in a trace, with their prims and targets. -/
def tracePayloads (t : List Event) : List (List String × String) :=
  t.filterMap paysProj

/-- A cube-mesh helper trace contains no reference or payload calls. -/
theorem filterMap_proj_cubeMesh (e : Env) (parent : List String) (nm : String)
    (h : ℚ) (pos : Vec3) :
    ((createCubeMesh e parent nm h pos).2).filterMap refsProj = [] ∧
    ((createCubeMesh e parent nm h pos).2).filterMap paysProj = [] := by
  simp only [createCubeMesh]
  split_ifs <;> simp [refsProj, paysProj]

/-- Opening or creating a stage emits no reference or payload calls. -/
theorem filterMap_proj_openOrCreate (e : Env) (p d : String) :
    ((openOrCreateStage e p d).1).filterMap refsProj = [] ∧
    ((openOrCreateStage e p d).1).filterMap paysProj = [] := by
  unfold openOrCreateStage
  split_ifs <;> simp [refsProj, paysProj]

/-- The component-stage builder authors no references or payloads. -/
theorem filterMap_proj_component (e : Env) (args : Args) :
    ((createComponentStage e args).1).filterMap refsProj = [] ∧
    ((createComponentStage e args).1).filterMap paysProj = [] := by
  simp only [createComponentStage]
  split_ifs <;>
    simp [refsProj, paysProj, List.filterMap_append,
      (filterMap_proj_cubeMesh e _ _ _ _).1, (filterMap_proj_cubeMesh e _ _ _ _).2]

/-- C6: on a successful run, `createReferences` authors exactly one
reference and exactly one payload, each on its own newly defined xform
prim, and both composition arcs target the same relative path to the
exported component stage. -/
theorem createReferences_reference_payload_same_target :
    ∀ (e : Env) (args : Args),
      parseCommonOptions e.tmpDir e.cmd = .returned args →
      (createReferencesRun e).exit = 0 →
      ∃ (refPrim payPrim : List String) (target compPath : String),
        traceReferences (createReferencesRun e).trace = [(refPrim, target)] ∧
        tracePayloads (createReferencesRun e).trace = [(payPrim, target)] ∧
        Event.define "Xform" refPrim ∈ (createReferencesRun e).trace ∧
        Event.define "Xform" payPrim ∈ (createReferencesRun e).trace ∧
        (createComponentStage e args).2 = some compPath ∧
        target = "./" ++ (if parentPathOf args.stagePath = "" then compPath
          else e.proximate compPath (parentPathOf args.stagePath)) := by
  intro e args hp hexit
  simp only [createReferencesRun, withParsedArgs, hp] at hexit ⊢
  by_cases hfl : (openOrCreateStage e args.stagePath).2.1
  · rcases hcomp : (createComponentStage e args).2 with _ | compPath
    · simp [hfl, hcomp] at hexit
    · clear hexit
      simp only [hfl, hcomp, eq_self_iff_true, not_true, if_false]
      refine ⟨(openOrCreateStage e args.stagePath).2.2
          ++ [e.validName (openOrCreateStage e args.stagePath).2.2 "referencePrim"],
        (openOrCreateStage e args.stagePath).2.2
          ++ [e.validName (openOrCreateStage e args.stagePath).2.2 "payloadPrim"],
        "./" ++ (if parentPathOf args.stagePath = "" then compPath
          else e.proximate compPath (parentPathOf args.stagePath)),
        compPath, ?_, ?_, ?_, ?_, rfl, rfl⟩
      · simp only [traceReferences, List.filterMap_append, List.filterMap_cons,
          List.filterMap_nil, (filterMap_proj_openOrCreate e args.stagePath "World").1,
          (filterMap_proj_component e args).1]
        simp [refsProj, apply_ite (List.filterMap refsProj)]
      · simp only [tracePayloads, List.filterMap_append, List.filterMap_cons,
          List.filterMap_nil, (filterMap_proj_openOrCreate e args.stagePath "World").2,
          (filterMap_proj_component e args).2]
        simp [paysProj, apply_ite (List.filterMap paysProj)]
      · simp
      · simp
  · simp [hfl] at hexit

/-- The arguments `parseCommonOptions` returns in the all-success
environment: the default binary stage path and no format arguments. -/
def defaultArgs : Args :=
  { stagePath := getDefaultStagePath "/tmp" ".usdc", fileFormatArgs := [] }

/-- Witness for C6: the all-success environment satisfies both hypotheses
and hence exhibits the single reference/payload pair. -/
theorem createReferences_same_target_witness :
    ∃ (refPrim payPrim : List String) (target compPath : String),
      traceReferences (createReferencesRun defaultEnv).trace = [(refPrim, target)] ∧
      tracePayloads (createReferencesRun defaultEnv).trace = [(payPrim, target)] ∧
      Event.define "Xform" refPrim ∈ (createReferencesRun defaultEnv).trace ∧
      Event.define "Xform" payPrim ∈ (createReferencesRun defaultEnv).trace ∧
      (createComponentStage defaultEnv defaultArgs).2 = some compPath ∧
      target = "./" ++ (if parentPathOf defaultArgs.stagePath = "" then compPath
        else defaultEnv.proximate compPath (parentPathOf defaultArgs.stagePath)) :=
  createReferences_reference_payload_same_target defaultEnv defaultArgs rfl rfl

/-! ## Per-sample policy lemmas -/

theorem exitPolicy_createMesh : exitStatusPolicy createMeshRun := by
  intro e
  unfold createMeshRun withParsedArgs
  rcases hp : parseCommonOptions e.tmpDir e.cmd with c | args
  · rcases parseCommonOptions_exit_codes _ _ _ hp with h | h <;> simp [h]
  · by_cases hacq : (openOrCreateStage e args.stagePath).2.1
    · rcases hm : (createCubeMesh e (openOrCreateStage e args.stagePath).2.2
          "cubeMesh" 50 (0, 150, 0)).1 with _ | mp <;>
        simp [hacq, hm]
    · simp [hacq]

theorem failStop_createMesh : failStopPolicy createMeshRun := by
  intro e h
  unfold createMeshRun withParsedArgs at h ⊢
  rcases hp : parseCommonOptions e.tmpDir e.cmd with c | args
  · rw [hp] at h
    simp at h
    rcases parseCommonOptions_exit_codes _ _ _ hp with h0 | h0 <;> omega
  · rw [hp] at h
    by_cases hacq : (openOrCreateStage e args.stagePath).2.1
    · rcases hm : (createCubeMesh e (openOrCreateStage e args.stagePath).2.2
          "cubeMesh" 50 (0, 150, 0)).1 with _ | mp
      · refine ⟨"Error creating cube mesh, exiting", ?_, rfl⟩
        simp [hacq, hm, getLast?_cons_of_ne_nil, List.getLast?_append_of_ne_nil,
          getLast?_append_single]
      · simp [hacq, hm] at h
    · refine ⟨"Error opening or creating stage, exiting", ?_, rfl⟩
      simp [hacq, getLast?_cons_of_ne_nil, List.getLast?_append_of_ne_nil,
        getLast?_append_single]

theorem shape_createMesh : fourStepShape createMeshRun := by
  intro e args hp h
  unfold createMeshRun withParsedArgs at h ⊢
  rw [hp] at h ⊢
  by_cases hacq : (openOrCreateStage e args.stagePath).2.1
  · rcases hm : (createCubeMesh e (openOrCreateStage e args.stagePath).2.2
        "cubeMesh" 50 (0, 150, 0)).1 with _ | mp
    · simp [hacq, hm] at h
    · refine ⟨(openOrCreateStage e args.stagePath).1,
        (createCubeMesh e (openOrCreateStage e args.stagePath).2.2 "cubeMesh" 50 (0, 150, 0)).2,
        openOrCreate_acquire e args.stagePath, ?_⟩
      simp [hacq, hm]
  · simp [hacq] at h

theorem exitPolicy_createStage : exitStatusPolicy createStageRun := by
  intro e
  unfold createStageRun withParsedArgs
  rcases hp : parseCommonOptions e.tmpDir e.cmd with c | args
  · rcases parseCommonOptions_exit_codes _ _ _ hp with h | h <;> simp [h]
  · by_cases hs : e.createStageOk args.stagePath
    · by_cases hl : e.defineOk ["World", e.validPrimName "distantLight"] <;>
        simp [hs, hl]
    · simp [hs]

theorem failStop_createStage : failStopPolicy createStageRun := by
  intro e h
  unfold createStageRun withParsedArgs at h ⊢
  rcases hp : parseCommonOptions e.tmpDir e.cmd with c | args
  · rw [hp] at h
    simp at h
    rcases parseCommonOptions_exit_codes _ _ _ hp with h0 | h0 <;> omega
  · rw [hp] at h
    by_cases hs : e.createStageOk args.stagePath
    · by_cases hl : e.defineOk ["World", e.validPrimName "distantLight"]
      · simp [hs, hl] at h
      · refine ⟨"Error creating distant light, exiting", ?_, rfl⟩
        simp [hs, hl, getLast?_cons_of_ne_nil, List.getLast?_append_of_ne_nil,
          getLast?_append_single]
    · refine ⟨"Error creating stage, exiting", ?_, rfl⟩
      simp [hs, getLast?_cons_of_ne_nil, List.getLast?_append_of_ne_nil,
        getLast?_append_single]

theorem shape_createStage : fourStepShape createStageRun := by
  intro e args hp h
  unfold createStageRun withParsedArgs at h ⊢
  rw [hp] at h ⊢
  by_cases hs : e.createStageOk args.stagePath
  · by_cases hl : e.defineOk ["World", e.validPrimName "distantLight"]
    · refine ⟨[Event.createStage args.stagePath "World"],
        (createCube e ["World"] "cube").2
          ++ [Event.define "DistantLight" (["World"] ++ [e.validPrimName "distantLight"])],
        Or.inl rfl, ?_⟩
      simp [hs, hl]
    · simp [hs, hl] at h
  · simp [hs] at h

theorem exitPolicy_createCameras : exitStatusPolicy createCamerasRun := by
  intro e
  unfold createCamerasRun withParsedArgs
  rcases hp : parseCommonOptions e.tmpDir e.cmd with c | args
  · rcases parseCommonOptions_exit_codes _ _ _ hp with h | h <;> simp [h]
  · by_cases hacq : (openOrCreateStage e args.stagePath).2.1 <;> simp [hacq]

theorem failStop_createCameras : failStopPolicy createCamerasRun := by
  intro e h
  unfold createCamerasRun withParsedArgs at h ⊢
  rcases hp : parseCommonOptions e.tmpDir e.cmd with c | args
  · rw [hp] at h
    simp at h
    rcases parseCommonOptions_exit_codes _ _ _ hp with h0 | h0 <;> omega
  · rw [hp] at h
    by_cases hacq : (openOrCreateStage e args.stagePath).2.1
    · simp [hacq] at h
    · refine ⟨"Error opening or creating stage, exiting", ?_, rfl⟩
      simp [hacq, getLast?_cons_of_ne_nil, List.getLast?_append_of_ne_nil,
        getLast?_append_single]

theorem shape_createCameras : fourStepShape createCamerasRun := by
  intro e args hp h
  unfold createCamerasRun withParsedArgs at h ⊢
  rw [hp] at h ⊢
  by_cases hacq : (openOrCreateStage e args.stagePath).2.1
  · refine ⟨(openOrCreateStage e args.stagePath).1,
      (let defPrim := (openOrCreateStage e args.stagePath).2.2
       let names := e.validNamesN defPrim ["telephotoCamera", "wideCamera"]
       [Event.define "Camera" (defPrim ++ [names.getD 0 "telephotoCamera"]),
        Event.setLocalTransform (defPrim ++ [names.getD 0 "telephotoCamera"]),
        Event.define "Camera" (defPrim ++ [names.getD 1 "wideCamera"]),
        Event.setLocalTransform (defPrim ++ [names.getD 1 "wideCamera"])]),
      openOrCreate_acquire e args.stagePath, ?_⟩
    simp [hacq]
  · simp [hacq] at h

theorem exitPolicy_createLights : exitStatusPolicy createLightsRun := by
  intro e
  unfold createLightsRun withParsedArgs
  rcases hp : parseCommonOptions e.tmpDir e.cmd with c | args
  · rcases parseCommonOptions_exit_codes _ _ _ hp with h | h <;> simp [h]
  · by_cases hacq : (openOrCreateStage e args.stagePath).2.1 <;> simp [hacq]

theorem failStop_createLights : failStopPolicy createLightsRun := by
  intro e h
  unfold createLightsRun withParsedArgs at h ⊢
  rcases hp : parseCommonOptions e.tmpDir e.cmd with c | args
  · rw [hp] at h
    simp at h
    rcases parseCommonOptions_exit_codes _ _ _ hp with h0 | h0 <;> omega
  · rw [hp] at h
    by_cases hacq : (openOrCreateStage e args.stagePath).2.1
    · simp [hacq] at h
    · refine ⟨"Error opening or creating stage, exiting", ?_, rfl⟩
      simp [hacq, getLast?_cons_of_ne_nil, List.getLast?_append_of_ne_nil,
        getLast?_append_single]

theorem shape_createLights : fourStepShape createLightsRun := by
  intro e args hp h
  unfold createLightsRun withParsedArgs at h ⊢
  rw [hp] at h ⊢
  by_cases hacq : (openOrCreateStage e args.stagePath).2.1
  · refine ⟨(openOrCreateStage e args.stagePath).1,
      createRectLight e (openOrCreateStage e args.stagePath).2.2
        ++ (copyTextureToStagePath e args.stagePath "kloofendal_48d_partly_cloudy.hdr").1
        ++ createDomeLight e (openOrCreateStage e args.stagePath).2.2,
      openOrCreate_acquire e args.stagePath, ?_⟩
    simp [hacq]
  · simp [hacq] at h

theorem exitPolicy_createTransforms : exitStatusPolicy createTransformsRun := by
  intro e
  unfold createTransformsRun withParsedArgs
  rcases hp : parseCommonOptions e.tmpDir e.cmd with c | args
  · rcases parseCommonOptions_exit_codes _ _ _ hp with h | h <;> simp [h]
  · by_cases hacq : (openOrCreateStage e args.stagePath).2.1 <;> simp [hacq]

theorem failStop_createTransforms : failStopPolicy createTransformsRun := by
  intro e h
  unfold createTransformsRun withParsedArgs at h ⊢
  rcases hp : parseCommonOptions e.tmpDir e.cmd with c | args
  · rw [hp] at h
    simp at h
    rcases parseCommonOptions_exit_codes _ _ _ hp with h0 | h0 <;> omega
  · rw [hp] at h
    by_cases hacq : (openOrCreateStage e args.stagePath).2.1
    · simp [hacq] at h
    · refine ⟨"Error opening or creating stage, exiting", ?_, rfl⟩
      simp [hacq, getLast?_cons_of_ne_nil, List.getLast?_append_of_ne_nil,
        getLast?_append_single]

theorem shape_createTransforms : fourStepShape createTransformsRun := by
  intro e args hp h
  unfold createTransformsRun withParsedArgs at h ⊢
  rw [hp] at h ⊢
  by_cases hacq : (openOrCreateStage e args.stagePath).2.1
  · refine ⟨(openOrCreateStage e args.stagePath).1,
      (let defPrim := (openOrCreateStage e args.stagePath).2.2
       let found := if e.foundXformable then (e.foundXformablePath, ([] : List Event))
         else createCube e defPrim "cube"
       let gx := defPrim ++ [e.validName defPrim "groundXform"]
       let ground := createCube e gx "groundCube"
       let quat := createCube e defPrim "quatCube"
       found.2
        ++ [Event.print ("Rotating xformable< " ++ pathString found.1
              ++ "> 45 degrees in the Y axis"),
            Event.setLocalTransform found.1,
            Event.define "Xform" gx]
        ++ ground.2 ++ [Event.setLocalTransform ground.1]
        ++ quat.2 ++ [Event.setLocalTransform quat.1]),
      openOrCreate_acquire e args.stagePath, ?_⟩
    simp [hacq]
  · simp [hacq] at h

theorem exitPolicy_setDisplayNames : exitStatusPolicy setDisplayNamesRun := by
  intro e
  unfold setDisplayNamesRun withParsedArgs
  rcases hp : parseCommonOptions e.tmpDir e.cmd with c | args
  · rcases parseCommonOptions_exit_codes _ _ _ hp with h | h <;> simp [h]
  · by_cases hacq : (openOrCreateStage e args.stagePath).2.1 <;> simp [hacq]

theorem failStop_setDisplayNames : failStopPolicy setDisplayNamesRun := by
  intro e h
  unfold setDisplayNamesRun withParsedArgs at h ⊢
  rcases hp : parseCommonOptions e.tmpDir e.cmd with c | args
  · rw [hp] at h
    simp at h
    rcases parseCommonOptions_exit_codes _ _ _ hp with h0 | h0 <;> omega
  · rw [hp] at h
    by_cases hacq : (openOrCreateStage e args.stagePath).2.1
    · simp [hacq] at h
    · refine ⟨"Error opening or creating stage, exiting", ?_, rfl⟩
      simp [hacq, getLast?_cons_of_ne_nil, List.getLast?_append_of_ne_nil,
        getLast?_append_single]

theorem shape_setDisplayNames : fourStepShape setDisplayNamesRun := by
  intro e args hp h
  unfold setDisplayNamesRun withParsedArgs at h ⊢
  rw [hp] at h ⊢
  by_cases hacq : (openOrCreateStage e args.stagePath).2.1
  · refine ⟨(openOrCreateStage e args.stagePath).1,
      createRocket e (openOrCreateStage e args.stagePath).2.2,
      openOrCreate_acquire e args.stagePath, ?_⟩
    simp [hacq]
  · simp [hacq] at h

theorem exitPolicy_setSemantics : exitStatusPolicy setSemanticsRun := by
  intro e
  unfold setSemanticsRun withParsedArgs
  rcases hp : parseCommonOptions e.tmpDir e.cmd with c | args
  · rcases parseCommonOptions_exit_codes _ _ _ hp with h | h <;> simp [h]
  · by_cases hacq : (openOrCreateStage e args.stagePath).2.1 <;> simp [hacq]

theorem failStop_setSemantics : failStopPolicy setSemanticsRun := by
  intro e h
  unfold setSemanticsRun withParsedArgs at h ⊢
  rcases hp : parseCommonOptions e.tmpDir e.cmd with c | args
  · rw [hp] at h
    simp at h
    rcases parseCommonOptions_exit_codes _ _ _ hp with h0 | h0 <;> omega
  · rw [hp] at h
    by_cases hacq : (openOrCreateStage e args.stagePath).2.1
    · simp [hacq] at h
    · refine ⟨"Error opening or creating stage, exiting", ?_, rfl⟩
      simp [hacq, getLast?_cons_of_ne_nil, List.getLast?_append_of_ne_nil,
        getLast?_append_single]

theorem shape_setSemantics : fourStepShape setSemanticsRun := by
  intro e args hp h
  unfold setSemanticsRun withParsedArgs at h ⊢
  rw [hp] at h ⊢
  by_cases hacq : (openOrCreateStage e args.stagePath).2.1
  · refine ⟨(openOrCreateStage e args.stagePath).1,
      (let defPrim := (openOrCreateStage e args.stagePath).2.2
       let house := createHouse e defPrim
       let doc := "This house was generated using the setSemantics sample, which utilizes Wikidata Q-codes to ensure accurate and consistent semantic representation."
       house.2
        ++ [Event.print ("Created house prim: " ++ pathString house.1),
            Event.setDocumentation defPrim]
        ++ setQCode house.1 ["Q3947"]
        ++ setQCode (house.1 ++ ["wall"]) ["Q42948"]
        ++ setQCode (house.1 ++ ["roof"]) ["Q83180"]
        ++ setQCode (house.1 ++ ["door"]) ["Q36794"]
        ++ setQCode (house.1 ++ ["window"]) ["Q35473"]
        ++ [Event.print doc]
        ++ e.semanticsLines.map Event.print),
      openOrCreate_acquire e args.stagePath, ?_⟩
    simp [hacq]
  · simp [hacq] at h

theorem exitPolicy_createSkeleton : exitStatusPolicy createSkeletonRun := by
  intro e
  unfold createSkeletonRun withParsedArgs
  rcases hp : parseCommonOptions e.tmpDir e.cmd with c | args
  · rcases parseCommonOptions_exit_codes _ _ _ hp with h | h <;> simp [h]
  · by_cases hacq : (openOrCreateStage e args.stagePath).2.1
    · rcases hm : (createSkelMesh e (openOrCreateStage e args.stagePath).2.2).1 with _ | sk <;>
        simp [hacq, hm]
    · simp [hacq]

theorem failStop_createSkeleton : failStopPolicy createSkeletonRun := by
  intro e h
  unfold createSkeletonRun withParsedArgs at h ⊢
  rcases hp : parseCommonOptions e.tmpDir e.cmd with c | args
  · rw [hp] at h
    simp at h
    rcases parseCommonOptions_exit_codes _ _ _ hp with h0 | h0 <;> omega
  · rw [hp] at h
    by_cases hacq : (openOrCreateStage e args.stagePath).2.1
    · rcases hm : (createSkelMesh e (openOrCreateStage e args.stagePath).2.2).1 with _ | sk
      · refine ⟨"Error creating skeletal mesh group, exiting", ?_, rfl⟩
        simp [hacq, hm, getLast?_cons_of_ne_nil, List.getLast?_append_of_ne_nil,
          getLast?_append_single]
      · simp [hacq, hm] at h
    · refine ⟨"Error opening or creating stage, exiting", ?_, rfl⟩
      simp [hacq, getLast?_cons_of_ne_nil, List.getLast?_append_of_ne_nil,
        getLast?_append_single]

theorem shape_createSkeleton : fourStepShape createSkeletonRun := by
  intro e args hp h
  unfold createSkeletonRun withParsedArgs at h ⊢
  rw [hp] at h ⊢
  by_cases hacq : (openOrCreateStage e args.stagePath).2.1
  · rcases hm : (createSkelMesh e (openOrCreateStage e args.stagePath).2.2).1 with _ | sk
    · simp [hacq, hm] at h
    · refine ⟨(openOrCreateStage e args.stagePath).1,
        (createSkelMesh e (openOrCreateStage e args.stagePath).2.2).2,
        openOrCreate_acquire e args.stagePath, ?_⟩
      simp [hacq, hm]
  · simp [hacq] at h

theorem exitPolicy_createPhysics : exitStatusPolicy createPhysicsRun := by
  intro e
  unfold createPhysicsRun withParsedArgs
  rcases hp : parseCommonOptions e.tmpDir e.cmd with c | args
  · rcases parseCommonOptions_exit_codes _ _ _ hp with h | h <;> simp [h]
  · by_cases hacq : (openOrCreateStage e args.stagePath).2.1
    · by_cases hg : (createGroundWithCollision e (openOrCreateStage e args.stagePath).2.2).2 <;>
        simp [hacq, hg]
    · simp [hacq]

theorem failStop_createPhysics : failStopPolicy createPhysicsRun := by
  intro e h
  unfold createPhysicsRun withParsedArgs at h ⊢
  rcases hp : parseCommonOptions e.tmpDir e.cmd with c | args
  · rw [hp] at h
    simp at h
    rcases parseCommonOptions_exit_codes _ _ _ hp with h0 | h0 <;> omega
  · rw [hp] at h
    by_cases hacq : (openOrCreateStage e args.stagePath).2.1
    · by_cases hg : (createGroundWithCollision e (openOrCreateStage e args.stagePath).2.2).2
      · simp [hacq, hg] at h
      · refine ⟨"Error creating ground, exiting", ?_, rfl⟩
        simp [hacq, hg, getLast?_cons_of_ne_nil, List.getLast?_append_of_ne_nil,
          getLast?_append_single]
    · refine ⟨"Error opening or creating stage, exiting", ?_, rfl⟩
      simp [hacq, getLast?_cons_of_ne_nil, List.getLast?_append_of_ne_nil,
        getLast?_append_single]

theorem shape_createPhysics : fourStepShape createPhysicsRun := by
  intro e args hp h
  unfold createPhysicsRun withParsedArgs at h ⊢
  rw [hp] at h ⊢
  by_cases hacq : (openOrCreateStage e args.stagePath).2.1
  · by_cases hg : (createGroundWithCollision e (openOrCreateStage e args.stagePath).2.2).2
    · refine ⟨(openOrCreateStage e args.stagePath).1,
        (let d := (openOrCreateStage e args.stagePath).2.2
         createPhysicsScene e d ++ (createGroundWithCollision e d).1
          ++ simpleRigidBodiesAndCollisions e d
          ++ simplePhysicsFixedJoints e d
          ++ simplePhysicsRevoluteJoints e d
          ++ simplePhysicsPrismaticJoints e d
          ++ simplePhysicsSphericalJoints e d
          ++ physicsMaterials e d),
        openOrCreate_acquire e args.stagePath, ?_⟩
      simp [hacq, hg]
    · simp [hacq, hg] at h
  · simp [hacq] at h

theorem exitPolicy_createReferences : exitStatusPolicy createReferencesRun := by
  intro e
  unfold createReferencesRun withParsedArgs
  rcases hp : parseCommonOptions e.tmpDir e.cmd with c | args
  · rcases parseCommonOptions_exit_codes _ _ _ hp with h | h <;> simp [h]
  · by_cases hacq : (openOrCreateStage e args.stagePath).2.1
    · rcases hcomp : (createComponentStage e args).2 with _ | compPath <;>
        simp [hacq, hcomp]
    · simp [hacq]

theorem failStop_createReferences : failStopPolicy createReferencesRun := by
  intro e h
  unfold createReferencesRun withParsedArgs at h ⊢
  rcases hp : parseCommonOptions e.tmpDir e.cmd with c | args
  · rw [hp] at h
    simp at h
    rcases parseCommonOptions_exit_codes _ _ _ hp with h0 | h0 <;> omega
  · rw [hp] at h
    by_cases hacq : (openOrCreateStage e args.stagePath).2.1
    · rcases hcomp : (createComponentStage e args).2 with _ | compPath
      · refine ⟨"Error creating component stage, exiting", ?_, rfl⟩
        simp [hacq, hcomp, getLast?_cons_of_ne_nil, List.getLast?_append_of_ne_nil,
          getLast?_append_single]
      · simp [hacq, hcomp] at h
    · refine ⟨"Error opening or creating stage, exiting", ?_, rfl⟩
      simp [hacq, getLast?_cons_of_ne_nil, List.getLast?_append_of_ne_nil,
        getLast?_append_single]

theorem shape_createReferences : fourStepShape createReferencesRun := by
  intro e args hp h
  unfold createReferencesRun withParsedArgs at h ⊢
  rw [hp] at h ⊢
  by_cases hacq : (openOrCreateStage e args.stagePath).2.1
  · rcases hcomp : (createComponentStage e args).2 with _ | compPath
    · simp [hacq, hcomp] at h
    · refine ⟨(openOrCreateStage e args.stagePath).1,
        (let defPrim := (openOrCreateStage e args.stagePath).2.2
         let stageParentPath := parentPathOf args.stagePath
         let referencePath := "./" ++ (if stageParentPath = "" then compPath
           else e.proximate compPath stageParentPath)
         let refXform := defPrim ++ [e.validName defPrim "referencePrim"]
         let payXform := defPrim ++ [e.validName defPrim "payloadPrim"]
         (createComponentStage e args).1
          ++ [Event.print ("Component stage: " ++ compPath),
              Event.define "Xform" refXform,
              Event.addReference refXform referencePath]
          ++ (if e.lastChildXformable
              then [Event.setLocalTransform (refXform ++ [e.lastChildName])] else [])
          ++ [Event.define "Xform" payXform,
              Event.addPayload payXform referencePath]
          ++ (if e.lastChildMesh
              then [Event.setPrimvar (payXform ++ [e.lastChildName]) "displayColor"] else [])),
        openOrCreate_acquire e args.stagePath, ?_⟩
      simp [hacq, hcomp]
  · simp [hacq] at h

theorem exitPolicy_createAsset : exitStatusPolicy createAssetRun := by
  intro e
  unfold createAssetRun withParsedArgs
  rcases hp : parseCommonOptions e.tmpDir e.cmd with c | args
  · rcases parseCommonOptions_exit_codes _ _ _ hp with h | h <;> simp [h]
  · by_cases hacq : (openOrCreateStage e args.stagePath).2.1
    · rcases ha : (createAsset e args).1 with _ | assetPath <;>
        simp [hacq, ha]
    · simp [hacq]

theorem failStop_createAsset : failStopPolicy createAssetRun := by
  intro e h
  unfold createAssetRun withParsedArgs at h ⊢
  rcases hp : parseCommonOptions e.tmpDir e.cmd with c | args
  · rw [hp] at h
    simp at h
    rcases parseCommonOptions_exit_codes _ _ _ hp with h0 | h0 <;> omega
  · rw [hp] at h
    by_cases hacq : (openOrCreateStage e args.stagePath).2.1
    · rcases ha : (createAsset e args).1 with _ | assetPath
      · refine ⟨"Error creating asset stage, exiting", ?_, rfl⟩
        simp [hacq, ha, getLast?_cons_of_ne_nil, List.getLast?_append_of_ne_nil,
          getLast?_append_single]
      · simp [hacq, ha] at h
    · refine ⟨"Error opening or creating stage, exiting", ?_, rfl⟩
      simp [hacq, getLast?_cons_of_ne_nil, List.getLast?_append_of_ne_nil,
        getLast?_append_single]

theorem shape_createAsset : fourStepShape createAssetRun := by
  intro e args hp h
  unfold createAssetRun withParsedArgs at h ⊢
  rw [hp] at h ⊢
  by_cases hacq : (openOrCreateStage e args.stagePath).2.1
  · rcases ha : (createAsset e args).1 with _ | assetPath
    · simp [hacq, ha] at h
    · refine ⟨(openOrCreateStage e args.stagePath).1,
        (let defPrim := (openOrCreateStage e args.stagePath).2.2
         [Event.setKind defPrim "assembly"] ++ (createAsset e args).2
          ++ [Event.print ("Asset stage: " ++ assetPath),
              Event.defineReference (defPrim ++ ["FlowerPlanter"]) ["FlowerPlanter"],
              Event.setLocalTransform (defPrim ++ ["FlowerPlanter"])]),
        openOrCreate_acquire e args.stagePath, ?_⟩
      simp [hacq, ha]
  · simp [hacq] at h

theorem exitPolicy_createMaterials : exitStatusPolicy createMaterialsRun := by
  intro e
  unfold createMaterialsRun withParsedArgs
  rcases hp : parseCommonOptions e.tmpDir e.cmd with c | args
  · rcases parseCommonOptions_exit_codes _ _ _ hp with h | h <;> simp [h]
  · by_cases hacq : (openOrCreateStage e args.stagePath).2.1
    · rcases hm1 : (createCubeMesh e (openOrCreateStage e args.stagePath).2.2
          "pbrMesh" 50 (-300, 0, -300)).1 with _ | mp1
      · simp [hacq, hm1]
      · by_cases hd0 : e.defineOk ((openOrCreateStage e args.stagePath).2.2
            ++ ["Looks", (e.validNamesN ((openOrCreateStage e args.stagePath).2.2 ++ ["Looks"])
                ["cubePbr", "sphereUvwPbr", "previewSurfacePbr"])[0]?.getD "cubePbr"])
        · by_cases hd1 : e.defineOk ((openOrCreateStage e args.stagePath).2.2
              ++ ["Looks", (e.validNamesN ((openOrCreateStage e args.stagePath).2.2 ++ ["Looks"])
                  ["cubePbr", "sphereUvwPbr", "previewSurfacePbr"])[1]?.getD "sphereUvwPbr"])
          · rcases hm2 : (createCubeMesh e (openOrCreateStage e args.stagePath).2.2
                "previewSurfaceMesh" 50 (-500, 0, -500)).1 with _ | mp2
            · simp [hacq, hm1, hd0, hd1, hm2]
            · by_cases hd2 : e.defineOk ((openOrCreateStage e args.stagePath).2.2
                  ++ ["Looks", (e.validNamesN ((openOrCreateStage e args.stagePath).2.2 ++ ["Looks"])
                      ["cubePbr", "sphereUvwPbr", "previewSurfacePbr"])[2]?.getD "previewSurfacePbr"]) <;>
                simp [hacq, hm1, hd0, hd1, hm2, hd2]
          · simp [hacq, hm1, hd0, hd1]
        · simp [hacq, hm1, hd0]
    · simp [hacq]

theorem failStop_createMaterials : failStopPolicy createMaterialsRun := by
  intro e h
  unfold createMaterialsRun withParsedArgs at h ⊢
  rcases hp : parseCommonOptions e.tmpDir e.cmd with c | args
  · rw [hp] at h
    simp at h
    rcases parseCommonOptions_exit_codes _ _ _ hp with h0 | h0 <;> omega
  · rw [hp] at h
    by_cases hacq : (openOrCreateStage e args.stagePath).2.1
    · rcases hm1 : (createCubeMesh e (openOrCreateStage e args.stagePath).2.2
          "pbrMesh" 50 (-300, 0, -300)).1 with _ | mp1
      · refine ⟨"Error creating cube mesh, exiting", ?_, rfl⟩
        simp [hacq, hm1, getLast?_cons_of_ne_nil, List.getLast?_append_of_ne_nil,
          getLast?_append_single]
      · by_cases hd0 : e.defineOk ((openOrCreateStage e args.stagePath).2.2
            ++ ["Looks", (e.validNamesN ((openOrCreateStage e args.stagePath).2.2 ++ ["Looks"])
                ["cubePbr", "sphereUvwPbr", "previewSurfacePbr"])[0]?.getD "cubePbr"])
        · by_cases hd1 : e.defineOk ((openOrCreateStage e args.stagePath).2.2
              ++ ["Looks", (e.validNamesN ((openOrCreateStage e args.stagePath).2.2 ++ ["Looks"])
                  ["cubePbr", "sphereUvwPbr", "previewSurfacePbr"])[1]?.getD "sphereUvwPbr"])
          · rcases hm2 : (createCubeMesh e (openOrCreateStage e args.stagePath).2.2
                "previewSurfaceMesh" 50 (-500, 0, -500)).1 with _ | mp2
            · refine ⟨"Error creating cube mesh, exiting", ?_, rfl⟩
              simp [hacq, hm1, hd0, hd1, hm2, getLast?_cons_of_ne_nil,
                List.getLast?_append_of_ne_nil, getLast?_append_single]
            · by_cases hd2 : e.defineOk ((openOrCreateStage e args.stagePath).2.2
                  ++ ["Looks", (e.validNamesN ((openOrCreateStage e args.stagePath).2.2 ++ ["Looks"])
                      ["cubePbr", "sphereUvwPbr", "previewSurfacePbr"])[2]?.getD "previewSurfacePbr"])
              · simp [hacq, hm1, hd0, hd1, hm2, hd2] at h
              · refine ⟨"Error creating USD Preview Surface material, exiting", ?_, rfl⟩
                simp [hacq, hm1, hd0, hd1, hm2, hd2, getLast?_cons_of_ne_nil,
                  List.getLast?_append_of_ne_nil, getLast?_append_single]
          · refine ⟨"Error creating sphere material, exiting", ?_, rfl⟩
            simp [hacq, hm1, hd0, hd1, getLast?_cons_of_ne_nil,
              List.getLast?_append_of_ne_nil, getLast?_append_single]
        · refine ⟨"Error creating mesh cube material, exiting", ?_, rfl⟩
          simp [hacq, hm1, hd0, getLast?_cons_of_ne_nil,
            List.getLast?_append_of_ne_nil, getLast?_append_single]
    · refine ⟨"Error opening or creating stage, exiting", ?_, rfl⟩
      simp [hacq, getLast?_cons_of_ne_nil, List.getLast?_append_of_ne_nil,
        getLast?_append_single]

theorem shape_createMaterials : fourStepShape createMaterialsRun := by
  intro e args hp h
  unfold createMaterialsRun withParsedArgs at h ⊢
  rw [hp] at h ⊢
  by_cases hacq : (openOrCreateStage e args.stagePath).2.1
  · rcases hm1 : (createCubeMesh e (openOrCreateStage e args.stagePath).2.2
        "pbrMesh" 50 (-300, 0, -300)).1 with _ | mp1
    · simp [hacq, hm1] at h
    · by_cases hd0 : e.defineOk ((openOrCreateStage e args.stagePath).2.2
          ++ ["Looks", (e.validNamesN ((openOrCreateStage e args.stagePath).2.2 ++ ["Looks"])
              ["cubePbr", "sphereUvwPbr", "previewSurfacePbr"])[0]?.getD "cubePbr"])
      · by_cases hd1 : e.defineOk ((openOrCreateStage e args.stagePath).2.2
            ++ ["Looks", (e.validNamesN ((openOrCreateStage e args.stagePath).2.2 ++ ["Looks"])
                ["cubePbr", "sphereUvwPbr", "previewSurfacePbr"])[1]?.getD "sphereUvwPbr"])
        · rcases hm2 : (createCubeMesh e (openOrCreateStage e args.stagePath).2.2
              "previewSurfaceMesh" 50 (-500, 0, -500)).1 with _ | mp2
          · simp [hacq, hm1, hd0, hd1, hm2] at h
          · by_cases hd2 : e.defineOk ((openOrCreateStage e args.stagePath).2.2
                ++ ["Looks", (e.validNamesN ((openOrCreateStage e args.stagePath).2.2 ++ ["Looks"])
                    ["cubePbr", "sphereUvwPbr", "previewSurfacePbr"])[2]?.getD "previewSurfacePbr"])
            · refine ⟨(openOrCreateStage e args.stagePath).1,
                (let defPrim := (openOrCreateStage e args.stagePath).2.2
                 let scope := defPrim ++ ["Looks"]
                 let names := e.validNamesN scope ["cubePbr", "sphereUvwPbr", "previewSurfacePbr"]
                 let colorTex := (copyTextureToStagePath e args.stagePath
                   "Fieldstone/Fieldstone_BaseColor.png").2
                 let normalTex := (copyTextureToStagePath e args.stagePath
                   "Fieldstone/Fieldstone_N.png").2
                 let ormTex := (copyTextureToStagePath e args.stagePath
                   "Fieldstone/Fieldstone_ORM.png").2
                 let mat0 := scope ++ [names.getD 0 "cubePbr"]
                 let sphere := defPrim ++ [e.validName defPrim "pbrSphere"]
                 let mat1 := scope ++ [names.getD 1 "sphereUvwPbr"]
                 let mat2 := scope ++ [names.getD 2 "previewSurfacePbr"]
                 [Event.define "Scope" scope]
                  ++ (copyTextureToStagePath e args.stagePath
                      "Fieldstone/Fieldstone_BaseColor.png").1
                  ++ (copyTextureToStagePath e args.stagePath
                      "Fieldstone/Fieldstone_N.png").1
                  ++ (copyTextureToStagePath e args.stagePath
                      "Fieldstone/Fieldstone_ORM.png").1
                  ++ (createCubeMesh e defPrim "pbrMesh" 50 (-300, 0, -300)).2
                  ++ [Event.define "Material" mat0,
                      Event.addTexture mat0 "diffuse" colorTex,
                      Event.addTexture mat0 "orm" ormTex,
                      Event.addTexture mat0 "normal" normalTex,
                      Event.bindMaterial mp1 mat0,
                      Event.define "Sphere" sphere, Event.setAttr sphere "radius" (.d 50)]
                  ++ setOmniverseRefinement sphere ++ setExtents sphere
                  ++ [Event.setLocalTransform sphere, Event.define "Material" mat1,
                      Event.addTexture mat1 "diffuse" colorTex,
                      Event.addTexture mat1 "orm" ormTex,
                      Event.addTexture mat1 "normal" normalTex,
                      Event.bindMaterial sphere mat1,
                      Event.createShaderInput mat1 "project_uvw",
                      Event.createShaderInput mat1 "world_or_object",
                      Event.createShaderInput mat1 "texture_scale"]
                  ++ (createCubeMesh e defPrim "previewSurfaceMesh" 50 (-500, 0, -500)).2
                  ++ [Event.define "Material" mat2,
                      Event.addTexture mat2 "diffuse" colorTex,
                      Event.addTexture mat2 "normal" normalTex,
                      Event.addTexture mat2 "orm" ormTex,
                      Event.bindMaterial mp2 mat2]),
                openOrCreate_acquire e args.stagePath, ?_⟩
              simp [hacq, hm1, hd0, hd1, hm2, hd2]
            · simp [hacq, hm1, hd0, hd1, hm2, hd2] at h
        · simp [hacq, hm1, hd0, hd1] at h
      · simp [hacq, hm1, hd0] at h
  · simp [hacq] at h

theorem usdTraverse_exit_codes :
    ∀ e : Env, (usdTraverseRun e).exit = 0 ∨ (usdTraverseRun e).exit = -1 ∨
      (usdTraverseRun e).exit = -2 := by
  intro e
  unfold usdTraverseRun
  by_cases ha : e.argc = 2
  · by_cases ho : e.openStageOk e.argv1 <;> simp [ha, ho]
  · simp [ha]

theorem usdTraverse_minus_one_iff :
    ∀ e : Env, (usdTraverseRun e).exit = -1 ↔ e.argc ≠ 2 := by
  intro e
  unfold usdTraverseRun
  by_cases ha : e.argc = 2
  · by_cases ho : e.openStageOk e.argv1 <;> simp [ha, ho]
  · simp [ha]

theorem usdTraverse_minus_two_iff :
    ∀ e : Env, (usdTraverseRun e).exit = -2 ↔
      (e.argc = 2 ∧ e.openStageOk e.argv1 = false) := by
  intro e
  unfold usdTraverseRun
  by_cases ha : e.argc = 2
  · by_cases ho : e.openStageOk e.argv1 <;> simp [ha, ho]
  · simp [ha]

theorem usdTraverse_no_save :
    ∀ e : Env, Event.saveStage ∉ (usdTraverseRun e).trace := by
  intro e
  unfold usdTraverseRun
  by_cases ha : e.argc = 2
  · by_cases ho : e.openStageOk e.argv1 <;> simp [ha, ho]
  · simp [ha]

/-- The exit status of `createLights` does not depend on the file-system
outcomes of the texture copy: the copy errors are printed and ignored. -/
theorem copy_failure_invisible_in_exit :
    ∀ (e : Env) (m m' : String),
      (createLightsRun { e with dirCreateErr := fun _ => some m,
                                copyErr := fun _ => some m' }).exit =
        (createLightsRun e).exit := by
  intro e m m'
  unfold createLightsRun withParsedArgs
  rcases hp : parseCommonOptions e.tmpDir e.cmd with c | args
  · simp [hp]
  · simp only [hp]
    unfold openOrCreateStage
    by_cases hf : e.findLayer args.stagePath
    · by_cases ho : e.openStageOk args.stagePath <;> simp [hf, ho]
    · by_cases hc : e.createStageOk args.stagePath <;> simp [hf, hc]

/-- The all-success environment except that every stage open fails. -/
def openFailEnv : Env :=
  { defaultEnv with openStageOk := fun _ => false }

/-- C1 counterexample: `usdTraverse` exits with status -2, not -1, when
the stage fails to open — an error path with a different status code.
(`parseCommonOptions` likewise exits with 2 on bad arguments, see the C8
theorems.) -/
theorem usdTraverse_exits_minus_two :
    (usdTraverseRun openFailEnv).exit = -2 ∧ ((-2 : Int) ≠ -1) := by
  constructor
  · rfl
  · decide

/-- C1 (amended): every run of an authoring sample exits with status 0,
-1 (a detected stage/prim/component failure, which prints an error
diagnostic as its last action) or 2 (an option-parser exit), while
`usdTraverse` exits with 0, -1 (exactly when the argument count is
wrong) or -2 (exactly when the stage fails to open). -/
theorem sample_exit_status_policy :
    (exitStatusPolicy createStageRun ∧ exitStatusPolicy createMeshRun ∧
      exitStatusPolicy createCamerasRun ∧ exitStatusPolicy createLightsRun ∧
      exitStatusPolicy createMaterialsRun ∧ exitStatusPolicy createPhysicsRun ∧
      exitStatusPolicy createReferencesRun ∧ exitStatusPolicy createSkeletonRun ∧
      exitStatusPolicy createTransformsRun ∧ exitStatusPolicy createAssetRun ∧
      exitStatusPolicy setDisplayNamesRun ∧ exitStatusPolicy setSemanticsRun) ∧
    (failStopPolicy createStageRun ∧ failStopPolicy createMeshRun ∧
      failStopPolicy createCamerasRun ∧ failStopPolicy createLightsRun ∧
      failStopPolicy createMaterialsRun ∧ failStopPolicy createPhysicsRun ∧
      failStopPolicy createReferencesRun ∧ failStopPolicy createSkeletonRun ∧
      failStopPolicy createTransformsRun ∧ failStopPolicy createAssetRun ∧
      failStopPolicy setDisplayNamesRun ∧ failStopPolicy setSemanticsRun) ∧
    (∀ e : Env, (usdTraverseRun e).exit = 0 ∨ (usdTraverseRun e).exit = -1 ∨
      (usdTraverseRun e).exit = -2) ∧
    (∀ e : Env, (usdTraverseRun e).exit = -1 ↔ e.argc ≠ 2) ∧
    (∀ e : Env, (usdTraverseRun e).exit = -2 ↔
      (e.argc = 2 ∧ e.openStageOk e.argv1 = false)) :=
  ⟨⟨exitPolicy_createStage, exitPolicy_createMesh, exitPolicy_createCameras,
    exitPolicy_createLights, exitPolicy_createMaterials, exitPolicy_createPhysics,
    exitPolicy_createReferences, exitPolicy_createSkeleton, exitPolicy_createTransforms,
    exitPolicy_createAsset, exitPolicy_setDisplayNames, exitPolicy_setSemantics⟩,
   ⟨failStop_createStage, failStop_createMesh, failStop_createCameras,
    failStop_createLights, failStop_createMaterials, failStop_createPhysics,
    failStop_createReferences, failStop_createSkeleton, failStop_createTransforms,
    failStop_createAsset, failStop_setDisplayNames, failStop_setSemantics⟩,
   usdTraverse_exit_codes, usdTraverse_minus_one_iff, usdTraverse_minus_two_iff⟩

/-- C2 counterexample: a successful `usdTraverse` run never persists a
stage — there is no save in its trace — so not every sample ends a
successful run by writing the stage to disk. -/
theorem usdTraverse_success_no_persist :
    (usdTraverseRun defaultEnv).exit = 0 ∧
    Event.saveStage ∉ (usdTraverseRun defaultEnv).trace := by
  constructor
  · rfl
  · exact usdTraverse_no_save defaultEnv

/-- C2 (amended): every authoring sample — every sample except
`usdTraverse` — whose option parsing returns and whose run succeeds
performs the four steps in order: parse, open or create the stage,
author, and persist the stage as the final call; `usdTraverse` never
saves a stage. -/
theorem authoring_samples_four_steps :
    fourStepShape createStageRun ∧ fourStepShape createMeshRun ∧
    fourStepShape createCamerasRun ∧ fourStepShape createLightsRun ∧
    fourStepShape createMaterialsRun ∧ fourStepShape createPhysicsRun ∧
    fourStepShape createReferencesRun ∧ fourStepShape createSkeletonRun ∧
    fourStepShape createTransformsRun ∧ fourStepShape createAssetRun ∧
    fourStepShape setDisplayNamesRun ∧ fourStepShape setSemanticsRun ∧
    (∀ e : Env, Event.saveStage ∉ (usdTraverseRun e).trace) :=
  ⟨shape_createStage, shape_createMesh, shape_createCameras, shape_createLights,
   shape_createMaterials, shape_createPhysics, shape_createReferences,
   shape_createSkeleton, shape_createTransforms, shape_createAsset,
   shape_setDisplayNames, shape_setSemantics, usdTraverse_no_save⟩

/-- Witness for C2: the all-success `createMesh` run exhibits the
four-step shape. -/
theorem authoring_samples_four_steps_witness :
    ∃ acq mid, isStageAcquire defaultArgs.stagePath acq ∧
      (createMeshRun defaultEnv).trace =
        [Event.parseArgs, Event.print ("Stage path: " ++ defaultArgs.stagePath)]
          ++ acq ++ mid ++ [Event.saveStage] :=
  authoring_samples_four_steps.2.1 defaultEnv defaultArgs rfl rfl

/-- C3 counterexample: with failing directory creation and file copy, the
`createLights` run prints the errors, still performs the copy, continues
authoring, and exits 0 with the save as its final call — it does not stop
at the first detected failure. -/
theorem copy_error_does_not_stop :
    (createLightsRun copyFailEnv).exit = 0 ∧
    "Error creating directories: Permission denied" ∈ (createLightsRun copyFailEnv).out ∧
    containsCopy (createLightsRun copyFailEnv).trace = true ∧
    (createLightsRun copyFailEnv).trace.getLast? = some Event.saveStage := by
  refine ⟨rfl, ?_, ?_, ?_⟩ <;>
    simp [createLightsRun, withParsedArgs, copyFailEnv, defaultEnv, parseCommonOptions,
      openOrCreateStage, createRectLight, createDomeLight, copyTextureToStagePath,
      Run.out, containsCopy, getDefaultStagePath, getLast?_cons_of_ne_nil,
      List.getLast?_append_of_ne_nil, getLast?_append_single]

/-- C3 (amended): each sample main stops at the first detected error —
the trace of every run that exits -1 ends with the error diagnostic — but
`copyTextureToStagePath` is an exception: its file-system failures are
only printed, the copy is attempted even after a failed directory
creation, and the calling sample's exit status is unaffected. -/
theorem first_error_stops_run :
    failStopPolicy createStageRun ∧ failStopPolicy createMeshRun ∧
    failStopPolicy createCamerasRun ∧ failStopPolicy createLightsRun ∧
    failStopPolicy createMaterialsRun ∧ failStopPolicy createPhysicsRun ∧
    failStopPolicy createReferencesRun ∧ failStopPolicy createSkeletonRun ∧
    failStopPolicy createTransformsRun ∧ failStopPolicy createAssetRun ∧
    failStopPolicy setDisplayNamesRun ∧ failStopPolicy setSemanticsRun ∧
    (∀ (e : Env) (stagePath textureFile : String),
      containsCopy (copyTextureToStagePath e stagePath textureFile).1 = true) ∧
    (∀ (e : Env) (m m' : String),
      (createLightsRun { e with dirCreateErr := fun _ => some m,
                                copyErr := fun _ => some m' }).exit =
        (createLightsRun e).exit) :=
  ⟨failStop_createStage, failStop_createMesh, failStop_createCameras,
   failStop_createLights, failStop_createMaterials, failStop_createPhysics,
   failStop_createReferences, failStop_createSkeleton, failStop_createTransforms,
   failStop_createAsset, failStop_setDisplayNames, failStop_setSemantics,
   containsCopy_copyTexture, copy_failure_invisible_in_exit⟩

/-- Witness for C3: a failed stage creation in `createStage` ends the
trace with the printed diagnostic. -/
theorem first_error_stops_run_witness :
    ∃ m, (createStageRun stageFailEnv).trace.getLast? = some (Event.print m) ∧
      startsWithError m = true :=
  first_error_stops_run.1 stageFailEnv rfl

/-- Witness for C1: in the open-failure environment `usdTraverse` indeed
reports -2, instantiating the equivalence. -/
theorem sample_exit_status_policy_witness :
    (usdTraverseRun openFailEnv).exit = -2 :=
  (sample_exit_status_policy.2.2.2.2 openFailEnv).mpr ⟨rfl, rfl⟩

/-- C7: every sample program is a deterministic function of its
command line and environment of external outcomes: two runs with equal
environments produce identical traces, output, and exit status. -/
theorem samples_deterministic :
    ∀ e₁ e₂ : Env, e₁ = e₂ →
      createStageRun e₁ = createStageRun e₂ ∧
      createMeshRun e₁ = createMeshRun e₂ ∧
      createCamerasRun e₁ = createCamerasRun e₂ ∧
      createLightsRun e₁ = createLightsRun e₂ ∧
      createMaterialsRun e₁ = createMaterialsRun e₂ ∧
      createPhysicsRun e₁ = createPhysicsRun e₂ ∧
      createReferencesRun e₁ = createReferencesRun e₂ ∧
      createSkeletonRun e₁ = createSkeletonRun e₂ ∧
      createTransformsRun e₁ = createTransformsRun e₂ ∧
      createAssetRun e₁ = createAssetRun e₂ ∧
      setDisplayNamesRun e₁ = setDisplayNamesRun e₂ ∧
      setSemanticsRun e₁ = setSemanticsRun e₂ ∧
      usdTraverseRun e₁ = usdTraverseRun e₂ := by
  intro e₁ e₂ h
  subst h
  exact ⟨rfl, rfl, rfl, rfl, rfl, rfl, rfl, rfl, rfl, rfl, rfl, rfl, rfl⟩

/-- Witness for C7: the determinism theorem at the all-success
environment. -/
theorem samples_deterministic_witness :
    createStageRun defaultEnv = createStageRun defaultEnv ∧
    createMeshRun defaultEnv = createMeshRun defaultEnv ∧
    createCamerasRun defaultEnv = createCamerasRun defaultEnv ∧
    createLightsRun defaultEnv = createLightsRun defaultEnv ∧
    createMaterialsRun defaultEnv = createMaterialsRun defaultEnv ∧
    createPhysicsRun defaultEnv = createPhysicsRun defaultEnv ∧
    createReferencesRun defaultEnv = createReferencesRun defaultEnv ∧
    createSkeletonRun defaultEnv = createSkeletonRun defaultEnv ∧
    createTransformsRun defaultEnv = createTransformsRun defaultEnv ∧
    createAssetRun defaultEnv = createAssetRun defaultEnv ∧
    setDisplayNamesRun defaultEnv = setDisplayNamesRun defaultEnv ∧
    setSemanticsRun defaultEnv = setSemanticsRun defaultEnv ∧
    usdTraverseRun defaultEnv = usdTraverseRun defaultEnv :=
  samples_deterministic defaultEnv defaultEnv rfl

/-- Witness for C4: the cone helper at concrete arguments. -/
theorem primitive_helpers_thin_wrappers_witness :
    (createCone defaultEnv ["World"] "cone" "Y" 100 50 none none none none).1 =
      ["World"] ++ [defaultEnv.validName ["World"] "cone"] ∧
    Event.define "Cone" (createCone defaultEnv ["World"] "cone" "Y" 100 50 none none none none).1 ∈
      (createCone defaultEnv ["World"] "cone" "Y" 100 50 none none none none).2 :=
  ⟨(primitive_helpers_thin_wrappers.1 defaultEnv ["World"] "cone" "Y" 100 50
      none none none none).1,
   (primitive_helpers_thin_wrappers.1 defaultEnv ["World"] "cone" "Y" 100 50
      none none none none).2.1⟩

/-- Witness for C5: the cube-mesh data at concrete arguments, including
the bounded-membership facts at concrete elements. -/
theorem createCubeMesh_primvars_witness :
    (createCubeMeshArgs defaultEnv ["World"] "cubeMesh" 50).normals.interpolation = "vertex" ∧
    (createCubeMeshArgs defaultEnv ["World"] "cubeMesh" 50).points.length = 24 ∧
    (3 : Nat) = 3 ∧ (0 : Nat) < 24 :=
  ⟨(createCubeMesh_primvars_and_counts defaultEnv ["World"] "cubeMesh" 50).1,
   (createCubeMesh_primvars_and_counts defaultEnv ["World"] "cubeMesh" 50).2.2.2.2.2.2.2.1,
   (createCubeMesh_primvars_and_counts defaultEnv ["World"] "cubeMesh" 50).2.2.2.2.1 3
     (by decide),
   (createCubeMesh_primvars_and_counts defaultEnv ["World"] "cubeMesh" 50).2.2.2.2.2.2.1 0
     (by decide)⟩

end samples
